import Mathlib

/-!
Shallow embedding of the Samsung mini-split coordinator
(`src/coordinator/heat-pump-coordinator.ts`, the `StateManager` in
`src/server.ts` / `state-manager.ts`, and the `WeatherService` in
`src/services/lighting-monitor.ts`), together with proofs about the
coordination decision engine.

Temperatures are JavaScript numbers; they are modelled as rationals.
Timestamps (milliseconds) are modelled as integers.  JavaScript
truthiness on numbers and strings (`a || b` falls back when `a` is `0`
resp. the empty string) is modelled explicitly by `jsOrQ` / `jsOrStr`.
-/

/-- JavaScript `a || b` on numbers: `0` is falsy. -/
def jsOrQ (a b : ℚ) : ℚ := if a = 0 then b else a

/-- JavaScript `a || b` on strings: the empty string is falsy. -/
def jsOrStr (a b : String) : String := if a = "" then b else a

/-- JavaScript `Math.round`: round half away from zero is `floor (x + 1/2)`
for nonnegative and, in JS, `Math.round` is `floor (x + 0.5)` for all x. -/
def jsRound (q : ℚ) : ℤ := ⌊q + 1/2⌋

/-- JavaScript `Math.abs`. -/
def jsAbs (q : ℚ) : ℚ := if q < 0 then -q else q

/-- `jsAbs` is the absolute value. -/
theorem jsAbs_eq_abs (q : ℚ) : jsAbs q = |q| := by
  unfold jsAbs
  rcases abs_cases q with ⟨h1, h2⟩ | ⟨h1, h2⟩
  · rw [if_neg (not_lt.mpr h2), h1]
  · rw [if_pos h2, h1]

/-- `deviceId.slice(-4)`: the last `n` characters of a string. -/
def sliceLast (s : String) (n : Nat) : String :=
  String.mk (s.data.drop (s.data.length - n))

/-- Thermostat mode (`'heat' | 'cool' | 'off'`). -/
inductive Mode where
  | heat
  | cool
  | off
deriving DecidableEq, Repr

/-- `ModeChangeEvent.reason` from `state-manager`. -/
inductive ModeChangeReason where
  | user_request
  | weather_based
  | coordinator_logic
  | schedule
  | override
deriving DecidableEq, Repr

/-- `ConflictEvent.conflictType` from `state-manager`. -/
inductive ConflictType where
  | mode_mismatch
  | temperature_range
  | rapid_switching
deriving DecidableEq, Repr

/-- `MiniSplitState` from `state-manager`.  The field
`manualTemperatureOverride` is referenced by the coordinator
(`executeCoordinationActions`); its merge default mirrors the other
boolean field defaults of `updateMiniSplitState`. -/
structure MiniSplitState where
  deviceId : String
  name : String
  currentTemperature : ℚ
  targetTemperature : ℚ
  mode : Mode
  isOnline : Bool
  lastUpdated : ℤ
  room : String
  priority : ℚ
  manualTemperatureOverride : Bool
deriving DecidableEq, Repr

/-- `ModeChangeEvent` from `state-manager`. -/
structure ModeChangeEvent where
  timestamp : ℤ
  deviceId : Option String
  previousMode : Mode
  newMode : Mode
  reason : ModeChangeReason
  outsideTemp : Option ℚ
deriving DecidableEq, Repr

/-- `ConflictEvent` from `state-manager`. -/
structure ConflictEvent where
  timestamp : ℤ
  conflictType : ConflictType
  description : String
  deviceIds : List String
  resolved : Bool
  resolution : Option String
deriving DecidableEq, Repr

/-- `Schedule` from `state-manager`. -/
structure Schedule where
  id : String
  name : String
  enabled : Bool
  timeStart : String
  timeEnd : String
  daysOfWeek : List Nat
  targetMinTemp : ℚ
  targetMaxTemp : ℚ
  mode : Option Mode
  rooms : Option (List String)
deriving DecidableEq, Repr

/-- `SystemState` from `state-manager`.  The `miniSplits` map is modelled
as a list of entries with unique `deviceId` keys (JavaScript `Map`
insertion order).  `coordinatorSetTemps` is modelled from the spec: the
bookkeeping written by `RecordCoordinatorTemperatureSet(id, value)`,
recording the most recent coordinator-initiated temperature write per
device (the source file that holds this method is not in the snapshot;
only its callers in the coordinator are). -/
structure SystemState where
  globalMode : Mode
  globalMinTemp : ℚ
  globalMaxTemp : ℚ
  outsideTemperature : ℚ
  lastOutsideWeatherUpdate : ℤ
  miniSplits : List MiniSplitState
  modeChangeHistory : List ModeChangeEvent
  conflicts : List ConflictEvent
  coordinatorSetTemps : List (String × ℚ)
deriving DecidableEq, Repr

/-- `this.state.miniSplits.get(deviceId)`. -/
def findUnit (st : SystemState) (deviceId : String) : Option MiniSplitState :=
  st.miniSplits.find? (fun u => u.deviceId = deviceId)

/-- `this.state.miniSplits.set(u.deviceId, u)` on the entry list:
replace the entry with the same key, else append (Map insertion order). -/
def setUnit (l : List MiniSplitState) (u : MiniSplitState) : List MiniSplitState :=
  if l.any (fun x => x.deviceId = u.deviceId) then
    l.map (fun x => if x.deviceId = u.deviceId then u else x)
  else
    l ++ [u]

/-- `getAllMiniSplitStates` then `.filter(ms => ms.isOnline)`. -/
def getOnlineMiniSplits (st : SystemState) : List MiniSplitState :=
  st.miniSplits.filter (fun u => u.isOnline)

/-- `historyLimit = 1000`. -/
def historyLimit : Nat := 1000

/-- `conflictLimit = 100`. -/
def conflictLimit : Nat := 100

/-- Push `e` and then, if the length exceeds `limit`, keep the most
recent `limit` entries (`array.slice(-limit)`). -/
def boundedAppend {α : Type} (limit : Nat) (l : List α) (e : α) : List α :=
  if (l ++ [e]).length > limit then (l ++ [e]).drop ((l ++ [e]).length - limit)
  else l ++ [e]

/-- `StateManager.addModeChangeEvent`. -/
def addModeChangeEventS (st : SystemState) (now : ℤ) (deviceId : Option String)
    (previousMode newMode : Mode) (reason : ModeChangeReason)
    (outsideTemp : Option ℚ) : SystemState :=
  let event : ModeChangeEvent :=
    { timestamp := now, deviceId := deviceId, previousMode := previousMode,
      newMode := newMode, reason := reason, outsideTemp := outsideTemp }
  { st with modeChangeHistory := boundedAppend historyLimit st.modeChangeHistory event }

/-- `StateManager.addConflictEvent`. -/
def addConflictEventS (st : SystemState) (now : ℤ) (conflictType : ConflictType)
    (description : String) (deviceIds : List String) : SystemState :=
  let conflict : ConflictEvent :=
    { timestamp := now, conflictType := conflictType, description := description,
      deviceIds := deviceIds, resolved := false, resolution := none }
  { st with conflicts := boundedAppend conflictLimit st.conflicts conflict }

/-- `StateManager.updateGlobalTemperatureRange`: throws when
`minTemp >= maxTemp` and when `minTemp < 50 || maxTemp > 90`; otherwise
assigns both bounds. -/
def updateGlobalTemperatureRange (st : SystemState) (minTemp maxTemp : ℚ) :
    Except String SystemState :=
  if minTemp ≥ maxTemp then
    Except.error "Minimum temperature must be less than maximum temperature"
  else if minTemp < 50 ∨ maxTemp > 90 then
    Except.error "Temperature range must be between 50F and 90F"
  else
    Except.ok { st with globalMinTemp := minTemp, globalMaxTemp := maxTemp }

/-- `StateManager.updateGlobalMode`: no-op when unchanged, otherwise
assign and append a global `ModeChangeEvent`. -/
def updateGlobalMode (st : SystemState) (newMode : Mode) (reason : ModeChangeReason)
    (outsideTemp : Option ℚ) (now : ℤ) : SystemState :=
  if st.globalMode ≠ newMode then
    addModeChangeEventS { st with globalMode := newMode } now none
      st.globalMode newMode reason outsideTemp
  else
    st

/-- `StateManager.updateOutsideTemperature`. -/
def updateOutsideTemperature (st : SystemState) (temperature : ℚ) (now : ℤ) :
    SystemState :=
  { st with outsideTemperature := temperature, lastOutsideWeatherUpdate := now }

/-- `Partial<MiniSplitState>`: the update object passed to
`updateMiniSplitState`. -/
structure MiniSplitUpdate where
  name : Option String := none
  currentTemperature : Option ℚ := none
  targetTemperature : Option ℚ := none
  mode : Option Mode := none
  isOnline : Option Bool := none
  lastUpdated : Option ℤ := none
  room : Option String := none
  priority : Option ℚ := none
  manualTemperatureOverride : Option Bool := none
deriving DecidableEq, Repr

/-- The merged entry computed inside `StateManager.updateMiniSplitState`:
JavaScript `||` defaults for absent or falsy existing fields, then the
spread of the update object wins. -/
def mergedUnit (existing : Option MiniSplitState) (deviceId : String)
    (u : MiniSplitUpdate) (now : ℤ) : MiniSplitState :=
  { deviceId := deviceId
    name := u.name.getD (jsOrStr ((existing.map (fun e => e.name)).getD "")
      ("Mini-Split " ++ sliceLast deviceId 4))
    currentTemperature := u.currentTemperature.getD
      (jsOrQ ((existing.map (fun e => e.currentTemperature)).getD 0) 70)
    targetTemperature := u.targetTemperature.getD
      (jsOrQ ((existing.map (fun e => e.targetTemperature)).getD 0) 70)
    mode := u.mode.getD ((existing.map (fun e => e.mode)).getD Mode.off)
    isOnline := u.isOnline.getD ((existing.map (fun e => e.isOnline)).getD false)
    lastUpdated := u.lastUpdated.getD now
    room := u.room.getD (jsOrStr ((existing.map (fun e => e.room)).getD "") "Unknown")
    priority := u.priority.getD
      (jsOrQ ((existing.map (fun e => e.priority)).getD 0) 5)
    manualTemperatureOverride := u.manualTemperatureOverride.getD
      ((existing.map (fun e => e.manualTemperatureOverride)).getD false) }

/-- `StateManager.updateMiniSplitState`: merge the update into the
existing entry, append a per-device `ModeChangeEvent` when the merge
changes `mode`, and store the entry. -/
def updateMiniSplitState (st : SystemState) (now : ℤ) (deviceId : String)
    (u : MiniSplitUpdate) : SystemState :=
  let existing := findUnit st deviceId
  let updated : MiniSplitState := mergedUnit existing deviceId u now
  let st1 :=
    match existing with
    | some e =>
        if e.mode ≠ updated.mode then
          addModeChangeEventS st now (some deviceId) e.mode updated.mode
            ModeChangeReason.user_request none
        else st
    | none => st
  { st1 with miniSplits := setUnit st1.miniSplits updated }

/-- `StateManager.getRecentModeChanges(hours)`: events strictly younger
than `hours` hours (milliseconds). -/
def getRecentModeChanges (st : SystemState) (hours : ℤ) (now : ℤ) :
    List ModeChangeEvent :=
  st.modeChangeHistory.filter (fun e => now - hours * 3600000 < e.timestamp)

/-- Modelled from the spec: `RecordCoordinatorTemperatureSet(id, value)`
marks the most recent coordinator-initiated temperature write for `id`
(the `state-manager` source file holding this method is not in the
snapshot; only its callers in the coordinator are). -/
def recordCoordinatorTemperatureSet (st : SystemState) (deviceId : String)
    (value : ℚ) : SystemState :=
  { st with coordinatorSetTemps :=
      (deviceId, value) :: st.coordinatorSetTemps.filter (fun p => p.1 ≠ deviceId) }

/-- Lookup of the coordinator-set record. -/
def lookupCoordinatorSet (st : SystemState) (deviceId : String) : Option ℚ :=
  (st.coordinatorSetTemps.find? (fun p => p.1 = deviceId)).map (fun p => p.2)

/-- Modelled from the spec: `ShouldRespectManualOverride(unit)` returns
true iff the target temperature was last changed by something other than
the coordinator (not immediately preceded by a
`RecordCoordinatorTemperatureSet` call for the same value) and that
temperature lies within `[globalMinTemp, globalMaxTemp]` (the
`state-manager` source file holding this method is not in the snapshot;
only its callers in the coordinator are). -/
def shouldRespectManualOverride (st : SystemState) (u : MiniSplitState) : Bool :=
  (lookupCoordinatorSet st u.deviceId ≠ some u.targetTemperature) &&
    (st.globalMinTemp ≤ u.targetTemperature) &&
    (u.targetTemperature ≤ st.globalMaxTemp)

/-- C3 — `UpdateGlobalTemperatureRange(min, max)` rejects exactly the
calls with `min >= max` or a bound outside `[50, 90]`, mutating nothing
on rejection, and otherwise sets exactly the two bounds; the code guard
`min < 50 || max > 90` is equivalent to "either bound outside [50,90]"
in the presence of the `min >= max` guard. -/
theorem updateGlobalTemperatureRange_correct (st : SystemState) (minTemp maxTemp : ℚ) :
    ((minTemp ≥ maxTemp ∨ minTemp < 50 ∨ minTemp > 90 ∨ maxTemp < 50 ∨ maxTemp > 90) →
      ∃ msg, updateGlobalTemperatureRange st minTemp maxTemp = Except.error msg) ∧
    ((minTemp < maxTemp ∧ 50 ≤ minTemp ∧ minTemp ≤ 90 ∧ 50 ≤ maxTemp ∧ maxTemp ≤ 90) →
      updateGlobalTemperatureRange st minTemp maxTemp =
        Except.ok { st with globalMinTemp := minTemp, globalMaxTemp := maxTemp }) ∧
    ((∃ msg, updateGlobalTemperatureRange st minTemp maxTemp = Except.error msg) ↔
      (minTemp ≥ maxTemp ∨ minTemp < 50 ∨ minTemp > 90 ∨ maxTemp < 50 ∨ maxTemp > 90)) := by
  have herr : (∃ msg, updateGlobalTemperatureRange st minTemp maxTemp = Except.error msg) ↔
      (minTemp ≥ maxTemp ∨ minTemp < 50 ∨ maxTemp > 90) := by
    unfold updateGlobalTemperatureRange
    split_ifs with h1 h2
    · simp [h1]
    · simp [h1, h2]
    · simp [h1, h2]
  have hiff : (minTemp ≥ maxTemp ∨ minTemp < 50 ∨ maxTemp > 90) ↔
      (minTemp ≥ maxTemp ∨ minTemp < 50 ∨ minTemp > 90 ∨ maxTemp < 50 ∨ maxTemp > 90) := by
    constructor
    · rintro (h | h | h)
      · exact Or.inl h
      · exact Or.inr (Or.inl h)
      · exact Or.inr (Or.inr (Or.inr (Or.inr h)))
    · rintro (h | h | h | h | h)
      · exact Or.inl h
      · exact Or.inr (Or.inl h)
      · rcases le_or_lt maxTemp minTemp with hba | hba
        · exact Or.inl hba
        · exact Or.inr (Or.inr (lt_trans h hba))
      · rcases le_or_lt maxTemp minTemp with hba | hba
        · exact Or.inl hba
        · exact Or.inr (Or.inl (lt_trans hba h))
      · exact Or.inr (Or.inr h)
  have hok : minTemp < maxTemp → 50 ≤ minTemp → maxTemp ≤ 90 →
      updateGlobalTemperatureRange st minTemp maxTemp =
        Except.ok { st with globalMinTemp := minTemp, globalMaxTemp := maxTemp } := by
    intro h1 h2 h3
    unfold updateGlobalTemperatureRange
    rw [if_neg (not_le.mpr h1), if_neg (by push_neg; exact ⟨h2, h3⟩)]
  refine ⟨fun h => herr.mpr (hiff.mpr h), ?_, herr.trans hiff⟩
  rintro ⟨h1, h2, _, _, h5⟩
  exact hok h1 h2 h5

/-- C3 witness: a rejected call (`min = 80 ≥ max = 70`) and an accepted
call (`[60, 80]`) at concrete inputs. -/
theorem updateGlobalTemperatureRange_witness :
    (∃ msg, updateGlobalTemperatureRange
      { globalMode := Mode.off, globalMinTemp := 68, globalMaxTemp := 72,
        outsideTemperature := 70, lastOutsideWeatherUpdate := 0,
        miniSplits := [], modeChangeHistory := [], conflicts := [],
        coordinatorSetTemps := [] } 80 70 = Except.error msg) ∧
    (updateGlobalTemperatureRange
      { globalMode := Mode.off, globalMinTemp := 68, globalMaxTemp := 72,
        outsideTemperature := 70, lastOutsideWeatherUpdate := 0,
        miniSplits := [], modeChangeHistory := [], conflicts := [],
        coordinatorSetTemps := [] } 60 80 = Except.ok
      { globalMode := Mode.off, globalMinTemp := 60, globalMaxTemp := 80,
        outsideTemperature := 70, lastOutsideWeatherUpdate := 0,
        miniSplits := [], modeChangeHistory := [], conflicts := [],
        coordinatorSetTemps := [] }) := by
  constructor
  · exact (updateGlobalTemperatureRange_correct _ 80 70).1 (Or.inl (by norm_num))
  · exact (updateGlobalTemperatureRange_correct _ 60 80).2.1
      (by norm_num)

/-- The bounded push never leaves more than `limit` entries. -/
theorem boundedAppend_length {α : Type} (limit : Nat) (l : List α) (e : α) :
    (boundedAppend limit l e).length ≤ limit := by
  unfold boundedAppend
  split_ifs with h
  · simp only [List.length_drop]
    omega
  · simp only [List.length_append, List.length_singleton] at h ⊢
    omega

/-- The bounded push keeps exactly the most recent entries, in order. -/
theorem boundedAppend_drop {α : Type} (limit : Nat) (l : List α) (e : α) :
    boundedAppend limit l e = (l ++ [e]).drop (l.length + 1 - limit) := by
  unfold boundedAppend
  split_ifs with h
  · simp [List.length_append]
  · simp only [List.length_append, List.length_singleton] at h
    have h0 : l.length + 1 - limit = 0 := by omega
    rw [h0, List.drop_zero]

/-- C5 — after every append the mode-change history holds at most 1000
entries and the conflict log at most 100; each append keeps exactly the
most recent entries of the grown log (oldest evicted first), including
the entry just inserted. -/
theorem boundedLogs_correct (st : SystemState) (now : ℤ) (deviceId : Option String)
    (p n : Mode) (r : ModeChangeReason) (ot : Option ℚ)
    (ct : ConflictType) (desc : String) (ids : List String) :
    ((addModeChangeEventS st now deviceId p n r ot).modeChangeHistory.length ≤ 1000) ∧
    ((addModeChangeEventS st now deviceId p n r ot).modeChangeHistory =
      (st.modeChangeHistory ++
        [({ timestamp := now, deviceId := deviceId, previousMode := p, newMode := n,
            reason := r, outsideTemp := ot } : ModeChangeEvent)]).drop
        (st.modeChangeHistory.length + 1 - 1000)) ∧
    ((addConflictEventS st now ct desc ids).conflicts.length ≤ 100) ∧
    ((addConflictEventS st now ct desc ids).conflicts =
      (st.conflicts ++
        [({ timestamp := now, conflictType := ct, description := desc,
            deviceIds := ids, resolved := false, resolution := none } : ConflictEvent)]).drop
        (st.conflicts.length + 1 - 100)) := by
  exact ⟨boundedAppend_length 1000 st.modeChangeHistory _,
    boundedAppend_drop 1000 st.modeChangeHistory _,
    boundedAppend_length 100 st.conflicts _,
    boundedAppend_drop 100 st.conflicts _⟩

/-- `WeatherData.location` from `lighting-monitor.ts` / `weather-service`. -/
structure WeatherLocation where
  lat : ℚ
  lon : ℚ
  name : String
deriving DecidableEq, Repr

/-- `WeatherData` from `weather-service`. -/
structure WeatherData where
  temperature : ℚ
  humidity : ℚ
  description : String
  timestamp : ℤ
  location : WeatherLocation
deriving DecidableEq, Repr

/-- The cache fields of `WeatherService` (`cachedData`, `lastFetchTime`). -/
structure WeatherServiceState where
  cachedData : Option WeatherData
  lastFetchTime : ℤ
deriving DecidableEq, Repr

/-- The configuration fields of `WeatherService` the cache logic reads. -/
structure WeatherServiceConfig where
  cacheDurationMs : ℤ
  lat : Option ℚ
  lon : Option ℚ
deriving DecidableEq, Repr

/-- A successful response of `fetchWeatherFromAPI`; a fetch that throws
(network error or invalid payload) is `none` at the call site. -/
structure FetchResponse where
  temperature : ℚ
  humidity : ℚ
  description : String
  lat : ℚ
  lon : ℚ
  name : String
deriving DecidableEq, Repr

/-- The fetch branch of `WeatherService.getWeatherData`: on success cache
and return the fresh data; on failure return the cached value if one
exists (even if stale) and otherwise the fixed 70°F fallback, leaving
the cache state untouched. -/
def weatherFetchBranch (cfg : WeatherServiceConfig) (ws : WeatherServiceState)
    (now : ℤ) (fetch : Option FetchResponse) : WeatherData × WeatherServiceState :=
  match fetch with
  | some r =>
      let fresh : WeatherData :=
        { temperature := r.temperature, humidity := r.humidity,
          description := r.description, timestamp := now,
          location := { lat := r.lat, lon := r.lon, name := r.name } }
      (fresh, { cachedData := some fresh, lastFetchTime := now })
  | none =>
      match ws.cachedData with
      | some c => (c, ws)
      | none =>
          ({ temperature := 70, humidity := 50, description := "Unknown (API Error)",
             timestamp := now,
             location := { lat := cfg.lat.getD 0, lon := cfg.lon.getD 0,
                           name := "Unknown Location" } }, ws)

/-- `WeatherService.getWeatherData`: return the cached value when it is
younger than the TTL, otherwise take the fetch branch. -/
def getWeatherData (cfg : WeatherServiceConfig) (ws : WeatherServiceState)
    (now : ℤ) (fetch : Option FetchResponse) : WeatherData × WeatherServiceState :=
  match ws.cachedData with
  | some c =>
      if now - ws.lastFetchTime < cfg.cacheDurationMs then (c, ws)
      else weatherFetchBranch cfg ws now fetch
  | none => weatherFetchBranch cfg ws now fetch

/-- `WeatherService.isCacheValid`. -/
def isCacheValid (cfg : WeatherServiceConfig) (ws : WeatherServiceState)
    (now : ℤ) : Bool :=
  ws.cachedData.isSome && decide (now - ws.lastFetchTime < cfg.cacheDurationMs)

/-- C8 — the outdoor-temperature query never propagates an error: a
cached value younger than the TTL is returned without consulting the
fetch outcome; on fetch failure the last cached value is returned when
one exists (even stale); otherwise the fixed 70°F fallback is returned;
in the failure paths the cache state is untouched; and `isCacheValid`
holds exactly when a cached value exists and is younger than the TTL. -/
theorem getWeatherData_never_fails (cfg : WeatherServiceConfig)
    (ws : WeatherServiceState) (now : ℤ) :
    (∀ c, ws.cachedData = some c → now - ws.lastFetchTime < cfg.cacheDurationMs →
      ∀ fetch : Option FetchResponse, getWeatherData cfg ws now fetch = (c, ws)) ∧
    (∀ c, ws.cachedData = some c →
      getWeatherData cfg ws now none = (c, ws)) ∧
    (ws.cachedData = none →
      (getWeatherData cfg ws now none).1.temperature = 70 ∧
      (getWeatherData cfg ws now none).2 = ws) ∧
    (isCacheValid cfg ws now = true ↔
      (ws.cachedData.isSome = true ∧ now - ws.lastFetchTime < cfg.cacheDurationMs)) := by
  refine ⟨?_, ?_, ?_, ?_⟩
  · intro c hc hlt fetch
    simp [getWeatherData, hc, hlt]
  · intro c hc
    by_cases hlt : now - ws.lastFetchTime < cfg.cacheDurationMs
    · simp [getWeatherData, hc, hlt]
    · simp [getWeatherData, hc, hlt, weatherFetchBranch]
  · intro hc
    simp [getWeatherData, hc, weatherFetchBranch]
  · simp [isCacheValid]

/-- A concrete cached reading for evaluating the weather cache logic. -/
def sampleWeatherData : WeatherData :=
  { temperature := 55, humidity := 40, description := "ok", timestamp := 0,
    location := { lat := 0, lon := 0, name := "here" } }

/-- The default 15-minute-TTL configuration. -/
def sampleWeatherConfig : WeatherServiceConfig :=
  { cacheDurationMs := 900000, lat := none, lon := none }

/-- A cache currently holding `sampleWeatherData`. -/
def sampleCachedState : WeatherServiceState :=
  { cachedData := some sampleWeatherData, lastFetchTime := 0 }

/-- An empty cache. -/
def sampleEmptyCacheState : WeatherServiceState :=
  { cachedData := none, lastFetchTime := 0 }

/-- C8 witness: a valid cache is returned as-is regardless of the fetch
outcome; with an empty cache and a failing fetch the 70°F fallback is
returned, at concrete inputs. -/
theorem getWeatherData_never_fails_witness :
    (getWeatherData sampleWeatherConfig sampleCachedState 1000 none =
      (sampleWeatherData, sampleCachedState)) ∧
    ((getWeatherData sampleWeatherConfig sampleEmptyCacheState 1000 none).1.temperature
      = 70) := by
  constructor
  · exact (getWeatherData_never_fails sampleWeatherConfig sampleCachedState 1000).1
      sampleWeatherData rfl (by norm_num [sampleWeatherConfig, sampleCachedState]) none
  · exact ((getWeatherData_never_fails sampleWeatherConfig sampleEmptyCacheState 1000).2.2.1
      rfl).1

/-- `activeSchedule?.targetMinTemp || state.globalMinTemp` in
`determineOptimalSystemMode` / `generateCoordinationActions`. -/
def heatingSetpointOf (st : SystemState) (activeSchedule : Option Schedule) : ℚ :=
  match activeSchedule with
  | some s => jsOrQ s.targetMinTemp st.globalMinTemp
  | none => st.globalMinTemp

/-- `activeSchedule?.targetMaxTemp || state.globalMaxTemp`. -/
def coolingSetpointOf (st : SystemState) (activeSchedule : Option Schedule) : ℚ :=
  match activeSchedule with
  | some s => jsOrQ s.targetMaxTemp st.globalMaxTemp
  | none => st.globalMaxTemp

/-- `HeatPumpCoordinator.determineOptimalSystemMode`: with no online
units the mode is forced off; below the heating setpoint heat; above the
cooling setpoint cool; otherwise the current global mode. -/
def determineOptimalSystemMode (st : SystemState) (activeSchedule : Option Schedule)
    (outsideTemp : ℚ) : Mode :=
  let heatingSetpoint := heatingSetpointOf st activeSchedule
  let coolingSetpoint := coolingSetpointOf st activeSchedule
  if (getOnlineMiniSplits st).length = 0 then Mode.off
  else if outsideTemp < heatingSetpoint then Mode.heat
  else if outsideTemp > coolingSetpoint then Mode.cool
  else st.globalMode

/-- The target-mode rule exactly as claim C1 words it: when a schedule is
active its `targetMinTemp`/`targetMaxTemp` are the setpoints, with the
global bounds used only when no schedule is active. -/
def claimTargetMode (st : SystemState) (activeSchedule : Option Schedule)
    (outsideTemp : ℚ) : Mode :=
  let hs := match activeSchedule with
    | some s => s.targetMinTemp
    | none => st.globalMinTemp
  let cs := match activeSchedule with
    | some s => s.targetMaxTemp
    | none => st.globalMaxTemp
  if (getOnlineMiniSplits st).length = 0 then Mode.off
  else if outsideTemp < hs then Mode.heat
  else if outsideTemp > cs then Mode.cool
  else st.globalMode

/-- The heating setpoint as the amended claim words it: the active
schedule `targetMinTemp` when it is nonzero, and the global minimum
when no schedule is active or the schedule value is 0 (JavaScript
falsy fallback). -/
def specHeatingSetpoint (st : SystemState) (activeSchedule : Option Schedule) : ℚ :=
  match activeSchedule with
  | some s => if s.targetMinTemp ≠ 0 then s.targetMinTemp else st.globalMinTemp
  | none => st.globalMinTemp

/-- The cooling setpoint as the amended claim words it. -/
def specCoolingSetpoint (st : SystemState) (activeSchedule : Option Schedule) : ℚ :=
  match activeSchedule with
  | some s => if s.targetMaxTemp ≠ 0 then s.targetMaxTemp else st.globalMaxTemp
  | none => st.globalMaxTemp

/-- A single online unit at 70°F, target 70°F, mode off. -/
def sampleUnit : MiniSplitState :=
  { deviceId := "dev-0001", name := "Living Room Mini-Split",
    currentTemperature := 70, targetTemperature := 70, mode := Mode.off,
    isOnline := true, lastUpdated := 0, room := "Living Room", priority := 5,
    manualTemperatureOverride := false }

/-- Global range [68, 72], global mode off, one online unit. -/
def sampleState : SystemState :=
  { globalMode := Mode.off, globalMinTemp := 68, globalMaxTemp := 72,
    outsideTemperature := 70, lastOutsideWeatherUpdate := 0,
    miniSplits := [sampleUnit], modeChangeHistory := [], conflicts := [],
    coordinatorSetTemps := [] }

/-- An enabled schedule whose `targetMinTemp` is 0 (falsy in JavaScript). -/
def zeroMinSchedule : Schedule :=
  { id := "s1", name := "freeze guard", enabled := true, timeStart := "00:00",
    timeEnd := "23:59", daysOfWeek := [0, 1, 2, 3, 4, 5, 6],
    targetMinTemp := 0, targetMaxTemp := 90, mode := none, rooms := none }

/-- C1 counterexample: with an active schedule whose `targetMinTemp` is 0
and outdoor temperature 50°F, the claim rule keeps the current mode
(off), but the code falls back to `globalMinTemp = 68` through the
JavaScript `||` and returns heat. -/
theorem claimTargetMode_ne_determineOptimalSystemMode :
    claimTargetMode sampleState (some zeroMinSchedule) 50 = Mode.off ∧
    determineOptimalSystemMode sampleState (some zeroMinSchedule) 50 = Mode.heat := by
  constructor
  · rfl
  · rfl

/-- C1 amended — the code target mode follows the claim rule with the
heating and cooling setpoints amended to fall back to the global bounds
also when the active schedule value is 0 (JavaScript `||` fallback):
zero online units force off; strictly below the (amended) heating
setpoint gives heat; strictly above the (amended) cooling setpoint
gives cool; otherwise the current global mode is kept, including off. -/
theorem determineOptimalSystemMode_correct (st : SystemState)
    (activeSchedule : Option Schedule) (outsideTemp : ℚ) :
    ((getOnlineMiniSplits st).length = 0 →
      determineOptimalSystemMode st activeSchedule outsideTemp = Mode.off) ∧
    (0 < (getOnlineMiniSplits st).length →
      (outsideTemp < specHeatingSetpoint st activeSchedule →
        determineOptimalSystemMode st activeSchedule outsideTemp = Mode.heat) ∧
      (specHeatingSetpoint st activeSchedule ≤ outsideTemp →
        specCoolingSetpoint st activeSchedule < outsideTemp →
        determineOptimalSystemMode st activeSchedule outsideTemp = Mode.cool) ∧
      (specHeatingSetpoint st activeSchedule ≤ outsideTemp →
        outsideTemp ≤ specCoolingSetpoint st activeSchedule →
        determineOptimalSystemMode st activeSchedule outsideTemp = st.globalMode)) := by
  have hhs : specHeatingSetpoint st activeSchedule = heatingSetpointOf st activeSchedule := by
    cases activeSchedule with
    | none => rfl
    | some s =>
        simp only [specHeatingSetpoint, heatingSetpointOf, jsOrQ]
        by_cases h : s.targetMinTemp = 0 <;> simp [h]
  have hcs : specCoolingSetpoint st activeSchedule = coolingSetpointOf st activeSchedule := by
    cases activeSchedule with
    | none => rfl
    | some s =>
        simp only [specCoolingSetpoint, coolingSetpointOf, jsOrQ]
        by_cases h : s.targetMaxTemp = 0 <;> simp [h]
  rw [hhs, hcs]
  unfold determineOptimalSystemMode
  refine ⟨fun h0 => by simp [h0], fun hpos => ⟨?_, ?_, ?_⟩⟩
  · intro hlt
    simp [Nat.pos_iff_ne_zero.mp hpos, hlt]
  · intro hge hgt
    simp [Nat.pos_iff_ne_zero.mp hpos, not_lt.mpr hge, hgt]
  · intro hge hle
    simp [Nat.pos_iff_ne_zero.mp hpos, not_lt.mpr hge, not_lt.mpr hle]

/-- The same system state with the single unit offline. -/
def sampleAllOfflineState : SystemState :=
  { sampleState with miniSplits := [{ sampleUnit with isOnline := false }] }

/-- C1 witness: outdoor 60°F below range [68, 72] with one online unit
gives heat; outdoor 70°F inside the range keeps the current mode off;
and zero online units force off, at concrete inputs. -/
theorem determineOptimalSystemMode_witness :
    determineOptimalSystemMode sampleState none 60 = Mode.heat ∧
    determineOptimalSystemMode sampleState none 70 = Mode.off ∧
    determineOptimalSystemMode sampleAllOfflineState none 60 = Mode.off := by
  refine ⟨?_, ?_, ?_⟩
  · exact ((determineOptimalSystemMode_correct sampleState none 60).2 (by decide)).1
      (by norm_num [specHeatingSetpoint, sampleState])
  · exact ((determineOptimalSystemMode_correct sampleState none 70).2 (by decide)).2.2
      (by norm_num [specHeatingSetpoint, sampleState])
      (by norm_num [specCoolingSetpoint, sampleState])
  · exact (determineOptimalSystemMode_correct sampleAllOfflineState none 60).1 (by decide)

/-- `CoordinationAction` from the coordinator: the decision-relevant
fields (`deviceId`, `action`, `value`); the informational `reason`
string is not modelled. -/
inductive CAction where
  | setMode (deviceId : String) (value : Mode)
  | setTemperature (deviceId : String) (value : ℚ)
deriving DecidableEq, Repr

/-- The desired temperature computed in `generateCoordinationActions`:
the heating setpoint in heat mode, the cooling setpoint in cool mode,
and the unit target (a no-op) otherwise. -/
def desiredTemp (st : SystemState) (activeSchedule : Option Schedule)
    (systemMode : Mode) (u : MiniSplitState) : ℚ :=
  match systemMode with
  | Mode.heat => heatingSetpointOf st activeSchedule
  | Mode.cool => coolingSetpointOf st activeSchedule
  | Mode.off => u.targetTemperature

/-- The per-unit body of the loop in
`HeatPumpCoordinator.generateCoordinationActions`: a `setMode` action
when the unit mode differs from the system mode; then, unless the manual
override of the unit is respected, a `setTemperature` action when the
desired temperature differs from the unit target by at least 1°F. -/
def perUnitActions (respect : MiniSplitState → Bool) (st : SystemState)
    (activeSchedule : Option Schedule) (systemMode : Mode)
    (u : MiniSplitState) : List CAction :=
  let modeActs := if u.mode ≠ systemMode then [CAction.setMode u.deviceId systemMode] else []
  if respect u then modeActs
  else
    let targetTemp := desiredTemp st activeSchedule systemMode u
    modeActs ++
      (if 1 ≤ jsAbs (targetTemp - u.targetTemperature) then
        [CAction.setTemperature u.deviceId targetTemp] else [])

/-- `HeatPumpCoordinator.generateCoordinationActions`, parametrized by
the override predicate it consults (`shouldRespectManualOverride` of the
state manager). -/
def generateCoordinationActions (respect : MiniSplitState → Bool) (st : SystemState)
    (activeSchedule : Option Schedule) (systemMode : Mode) : List CAction :=
  (getOnlineMiniSplits st).flatMap (perUnitActions respect st activeSchedule systemMode)

/-- A `setTemperature` action is produced for a unit exactly when its
override is not respected, the value is the desired temperature and the
1°F deadband is crossed. -/
theorem setTemperature_mem_perUnitActions (respect : MiniSplitState → Bool)
    (st : SystemState) (activeSchedule : Option Schedule) (systemMode : Mode)
    (u : MiniSplitState) (d : String) (v : ℚ) :
    (CAction.setTemperature d v ∈ perUnitActions respect st activeSchedule systemMode u) ↔
      (respect u = false ∧ d = u.deviceId ∧ v = desiredTemp st activeSchedule systemMode u ∧
        1 ≤ jsAbs (desiredTemp st activeSchedule systemMode u - u.targetTemperature)) := by
  unfold perUnitActions
  cases hr : respect u
  · by_cases hm : u.mode = systemMode <;>
      by_cases h1 : 1 ≤ jsAbs (desiredTemp st activeSchedule systemMode u - u.targetTemperature) <;>
      simp [hm, h1, and_assoc]
  · by_cases hm : u.mode = systemMode <;> simp [hm]

/-- A `setMode` action is produced for a unit exactly when its mode
differs from the system mode; its value is the system mode. -/
theorem setMode_mem_perUnitActions (respect : MiniSplitState → Bool)
    (st : SystemState) (activeSchedule : Option Schedule) (systemMode : Mode)
    (u : MiniSplitState) (d : String) (m : Mode) :
    (CAction.setMode d m ∈ perUnitActions respect st activeSchedule systemMode u) ↔
      (d = u.deviceId ∧ m = systemMode ∧ u.mode ≠ systemMode) := by
  unfold perUnitActions
  cases hr : respect u
  · by_cases hm : u.mode = systemMode <;>
      by_cases h1 : 1 ≤ jsAbs (desiredTemp st activeSchedule systemMode u - u.targetTemperature) <;>
      simp [hm, h1, and_assoc]
  · by_cases hm : u.mode = systemMode <;> simp [hm]

/-- Membership in the generated action list is membership in the
per-unit actions of the (unique) online unit with that device id. -/
theorem setTemperature_mem_generate (respect : MiniSplitState → Bool)
    (st : SystemState) (activeSchedule : Option Schedule) (systemMode : Mode)
    (u : MiniSplitState) (v : ℚ)
    (hnd : (st.miniSplits.map (fun x => x.deviceId)).Nodup)
    (hu : u ∈ st.miniSplits) (hon : u.isOnline = true) :
    (CAction.setTemperature u.deviceId v ∈
        generateCoordinationActions respect st activeSchedule systemMode) ↔
      (CAction.setTemperature u.deviceId v ∈
        perUnitActions respect st activeSchedule systemMode u) := by
  unfold generateCoordinationActions
  rw [List.mem_flatMap]
  constructor
  · rintro ⟨u2, hu2, hmem⟩
    have hu2m : u2 ∈ st.miniSplits := (List.mem_filter.mp hu2).1
    have hid : u2.deviceId = u.deviceId :=
      ((setTemperature_mem_perUnitActions respect st activeSchedule systemMode
        u2 u.deviceId v).mp hmem).2.1.symm
    have : u2 = u := List.inj_on_of_nodup_map hnd hu2m hu hid
    rwa [this] at hmem
  · intro hmem
    exact ⟨u, List.mem_filter.mpr ⟨hu, by simp [hon]⟩, hmem⟩

/-- C4 — for an online unit whose manual override is not respected, the
cycle emits a `setTemperature` action for that unit iff the desired
temperature (heating setpoint in heat, cooling setpoint in cool, the
unit target itself in off) differs from the unit target by at least 1°F;
a desired temperature within 0.9°F never produces one. -/
theorem deadband_correct (respect : MiniSplitState → Bool) (st : SystemState)
    (activeSchedule : Option Schedule) (systemMode : Mode) (u : MiniSplitState)
    (hnd : (st.miniSplits.map (fun x => x.deviceId)).Nodup)
    (hu : u ∈ st.miniSplits) (hon : u.isOnline = true)
    (hresp : respect u = false) :
    ((∃ v, CAction.setTemperature u.deviceId v ∈
        generateCoordinationActions respect st activeSchedule systemMode) ↔
      1 ≤ jsAbs (desiredTemp st activeSchedule systemMode u - u.targetTemperature)) ∧
    (jsAbs (desiredTemp st activeSchedule systemMode u - u.targetTemperature) ≤ 9/10 →
      ∀ v, CAction.setTemperature u.deviceId v ∉
        generateCoordinationActions respect st activeSchedule systemMode) := by
  have hchar : ∀ v, (CAction.setTemperature u.deviceId v ∈
      generateCoordinationActions respect st activeSchedule systemMode) ↔
      (v = desiredTemp st activeSchedule systemMode u ∧
        1 ≤ jsAbs (desiredTemp st activeSchedule systemMode u - u.targetTemperature)) := by
    intro v
    rw [setTemperature_mem_generate respect st activeSchedule systemMode u v hnd hu hon,
      setTemperature_mem_perUnitActions]
    simp [hresp]
  constructor
  · constructor
    · rintro ⟨v, hv⟩
      exact ((hchar v).mp hv).2
    · intro h1
      exact ⟨desiredTemp st activeSchedule systemMode u, (hchar _).mpr ⟨rfl, h1⟩⟩
  · intro hsmall v hv
    have h1 := ((hchar v).mp hv).2
    have : (9 : ℚ)/10 < 1 := by norm_num
    linarith

/-- C4 witness: in `sampleState` (range [68, 72]) with system mode heat,
the desired 68°F differs from the 70°F target by 2°F, so a
`setTemperature 68` action is generated, at concrete inputs. -/
theorem deadband_correct_witness :
    ∃ v, CAction.setTemperature sampleUnit.deviceId v ∈
      generateCoordinationActions (fun _ => false) sampleState none Mode.heat := by
  exact (deadband_correct (fun _ => false) sampleState none Mode.heat sampleUnit
    (by decide) (by decide) (by decide) rfl).1.mpr (by norm_num [jsAbs, desiredTemp,
      heatingSetpointOf, jsOrQ, sampleState, sampleUnit])

/-- `sampleUnit` with its target manually moved to 74°F (no coordinator
record for that value exists). -/
def sampleManual74Unit : MiniSplitState :=
  { sampleUnit with targetTemperature := 74 }

/-- `sampleState` holding only the manually-set 74°F unit; the global
range stays [68, 72], so 74°F lies outside it. -/
def sampleManual74State : SystemState :=
  { sampleState with miniSplits := [sampleManual74Unit] }

/-- C2 counterexample: the 74°F manual target lies outside [68, 72] and
is last set by a non-coordinator actor, yet with outdoor 70°F the target
mode stays off and the cycle generates no action at all — in particular
no correcting `setTemperature` — because in off mode the desired
temperature equals the unit target. -/
theorem manualOverride_counterexample :
    shouldRespectManualOverride sampleManual74State sampleManual74Unit = false ∧
    sampleManual74State.globalMaxTemp < sampleManual74Unit.targetTemperature ∧
    lookupCoordinatorSet sampleManual74State sampleManual74Unit.deviceId ≠
      some sampleManual74Unit.targetTemperature ∧
    determineOptimalSystemMode sampleManual74State none 70 = Mode.off ∧
    generateCoordinationActions (shouldRespectManualOverride sampleManual74State)
      sampleManual74State none
      (determineOptimalSystemMode sampleManual74State none 70) = [] := by
  refine ⟨by decide, by decide, by decide, by decide, ?_⟩
  norm_num [generateCoordinationActions, perUnitActions, desiredTemp,
    getOnlineMiniSplits, shouldRespectManualOverride, lookupCoordinatorSet, jsAbs,
    determineOptimalSystemMode, heatingSetpointOf, coolingSetpointOf, jsOrQ,
    sampleManual74State, sampleManual74Unit, sampleState, sampleUnit]

/-- C2 amended — an online unit whose override is respected (manual
target within the global range) receives no `setTemperature` action;
and an online unit whose manual target lies outside the global range is
corrected to the setpoint for the target mode, provided that mode is
heat or cool and the setpoint differs from the unit target by at least
1°F (in off mode, or within the 1°F deadband, no correcting action is
emitted). -/
theorem manualOverride_respect_correct (st : SystemState)
    (activeSchedule : Option Schedule) (systemMode : Mode) (u : MiniSplitState)
    (hnd : (st.miniSplits.map (fun x => x.deviceId)).Nodup)
    (hu : u ∈ st.miniSplits) (hon : u.isOnline = true) :
    (shouldRespectManualOverride st u = true →
      ∀ v, CAction.setTemperature u.deviceId v ∉
        generateCoordinationActions (shouldRespectManualOverride st) st
          activeSchedule systemMode) ∧
    (lookupCoordinatorSet st u.deviceId ≠ some u.targetTemperature →
      (u.targetTemperature < st.globalMinTemp ∨ st.globalMaxTemp < u.targetTemperature) →
      (systemMode = Mode.heat ∨ systemMode = Mode.cool) →
      1 ≤ jsAbs (desiredTemp st activeSchedule systemMode u - u.targetTemperature) →
      CAction.setTemperature u.deviceId (desiredTemp st activeSchedule systemMode u) ∈
        generateCoordinationActions (shouldRespectManualOverride st) st
          activeSchedule systemMode) := by
  constructor
  · intro hresp v hv
    have hmem := (setTemperature_mem_generate (shouldRespectManualOverride st) st
      activeSchedule systemMode u v hnd hu hon).mp hv
    have hfalse := ((setTemperature_mem_perUnitActions (shouldRespectManualOverride st)
      st activeSchedule systemMode u u.deviceId v).mp hmem).1
    rw [hresp] at hfalse
    simp at hfalse
  · intro _ hout _ h1
    have hr : shouldRespectManualOverride st u = false := by
      rcases hout with h | h
      · have hnle : ¬ (st.globalMinTemp ≤ u.targetTemperature) := not_le.mpr h
        simp [shouldRespectManualOverride, hnle]
      · have hnle : ¬ (u.targetTemperature ≤ st.globalMaxTemp) := not_le.mpr h
        simp [shouldRespectManualOverride, hnle]
    exact (setTemperature_mem_generate (shouldRespectManualOverride st) st
      activeSchedule systemMode u _ hnd hu hon).mpr
      ((setTemperature_mem_perUnitActions (shouldRespectManualOverride st) st
        activeSchedule systemMode u _ _).mpr ⟨hr, rfl, rfl, h1⟩)

/-- C2 witness: the in-range 70°F manual target of `sampleState` blocks
the `setTemperature 68` action in heat mode, and the out-of-range 74°F
manual target of `sampleManual74State` is corrected to 72°F in cool
mode, at concrete inputs. -/
theorem manualOverride_respect_witness :
    (CAction.setTemperature sampleUnit.deviceId 68 ∉
      generateCoordinationActions (shouldRespectManualOverride sampleState)
        sampleState none Mode.heat) ∧
    (CAction.setTemperature sampleManual74Unit.deviceId 72 ∈
      generateCoordinationActions (shouldRespectManualOverride sampleManual74State)
        sampleManual74State none Mode.cool) := by
  constructor
  · exact (manualOverride_respect_correct sampleState none Mode.heat sampleUnit
      (by decide) (by decide) (by decide)).1 (by decide) 68
  · have hd : desiredTemp sampleManual74State none Mode.cool sampleManual74Unit = 72 := rfl
    have h := (manualOverride_respect_correct sampleManual74State none Mode.cool
      sampleManual74Unit (by decide) (by decide) (by decide)).2 (by decide)
      (Or.inr (by decide)) (Or.inr rfl)
      (by norm_num [jsAbs, desiredTemp, coolingSetpointOf, jsOrQ,
        sampleManual74State, sampleManual74Unit, sampleState, sampleUnit])
    rw [hd] at h
    exact h

/-- `Math.min(...temps)` over a nonempty list (head-seeded fold). -/
def listMinQ (l : List ℚ) : ℚ :=
  match l with
  | [] => 0
  | x :: xs => xs.foldl min x

/-- `Math.max(...temps)` over a nonempty list (head-seeded fold). -/
def listMaxQ (l : List ℚ) : ℚ :=
  match l with
  | [] => 0
  | x :: xs => xs.foldl max x

/-- The three kinds of human-readable conflict strings pushed into the
`conflicts` array that `detectConflicts` returns. -/
inductive ConflictKind where
  | modeConflict
  | temperatureSpread
  | rapidSwitching
deriving DecidableEq, Repr

/-- `[...new Set(activeModes)]`: the distinct non-off modes among the
online units. -/
def activeUniqueModes (onlineUnits : List MiniSplitState) : List Mode :=
  ((onlineUnits.map (fun u => u.mode)).filter (fun m => decide (m ≠ Mode.off))).dedup

/-- The spread `Math.max(...temps) - Math.min(...temps)` of the current
temperatures of a unit list. -/
def temperatureSpreadOf (l : List MiniSplitState) : ℚ :=
  listMaxQ (l.map (fun u => u.currentTemperature)) -
    listMinQ (l.map (fun u => u.currentTemperature))

/-- `HeatPumpCoordinator.detectConflicts`: with fewer than 2 online
units nothing is detected; otherwise a mode mismatch (more than one
distinct non-off mode) is reported and appended via `addConflictEvent`,
while a temperature spread above 10°F and rapid switching (more than 3
mode changes in the trailing hour) are only reported as result strings
(modelled as `ConflictKind`s), never appended. -/
def detectConflicts (st : SystemState) (now : ℤ) : List ConflictKind × SystemState :=
  let onlineUnits := getOnlineMiniSplits st
  if onlineUnits.length < 2 then ([], st)
  else
    let activeModes := (onlineUnits.map (fun u => u.mode)).filter
      (fun m => decide (m ≠ Mode.off))
    let conflictingUnits := onlineUnits.filter
      (fun u => decide (u.mode ≠ Mode.off) && decide (u.mode ∈ activeModes))
    let st1 :=
      if 1 < (activeUniqueModes onlineUnits).length then
        addConflictEventS st now ConflictType.mode_mismatch
          "Multiple units have conflicting modes"
          (conflictingUnits.map (fun u => u.deviceId))
      else st
    let kinds :=
      (if 1 < (activeUniqueModes onlineUnits).length then
        [ConflictKind.modeConflict] else []) ++
      (if 10 < temperatureSpreadOf onlineUnits then
        [ConflictKind.temperatureSpread] else []) ++
      (if 3 < (getRecentModeChanges st 1 now).length then
        [ConflictKind.rapidSwitching] else [])
    (kinds, st1)

/-- Two online units in heat mode at 70°F each. -/
def sampleHeatPair : List MiniSplitState :=
  [{ sampleUnit with mode := Mode.heat },
   { sampleUnit with deviceId := "dev-0002", mode := Mode.heat }]

/-- A global mode-change event at millisecond timestamp `i`. -/
def rapidHistoryEvent (i : ℤ) : ModeChangeEvent :=
  { timestamp := i, deviceId := none, previousMode := Mode.off,
    newMode := Mode.heat, reason := ModeChangeReason.coordinator_logic,
    outsideTemp := none }

/-- Two agreeing online units and four mode changes inside the trailing
hour (relative to `now = 3600000`); no conflict stored yet. -/
def sampleRapidState : SystemState :=
  { sampleState with
      miniSplits := sampleHeatPair,
      modeChangeHistory := [rapidHistoryEvent 1, rapidHistoryEvent 2,
        rapidHistoryEvent 3, rapidHistoryEvent 4] }

/-- C6 counterexample: four mode changes in the trailing hour make the
detection step report rapid switching, yet the stored conflict log is
left empty — no `AddConflictEvent` call is made for rapid switching. -/
theorem detectConflicts_counterexample :
    (detectConflicts sampleRapidState 3600000).1 = [ConflictKind.rapidSwitching] ∧
    (detectConflicts sampleRapidState 3600000).2.conflicts = [] := by
  have hlen : ¬ (getOnlineMiniSplits sampleRapidState).length < 2 := by decide
  have hmm : ¬ 1 < (activeUniqueModes (getOnlineMiniSplits sampleRapidState)).length := by
    decide
  have hsp : ¬ 10 < temperatureSpreadOf (getOnlineMiniSplits sampleRapidState) := by
    norm_num [temperatureSpreadOf, listMinQ, listMaxQ, getOnlineMiniSplits,
      sampleRapidState, sampleHeatPair, sampleState, sampleUnit]
  have hrp : 3 < (getRecentModeChanges sampleRapidState 1 3600000).length := by decide
  unfold detectConflicts
  rw [if_neg hlen]
  simp only [if_neg hmm, if_neg hsp, if_pos hrp]
  exact ⟨rfl, rfl⟩

/-- C6 amended — the detection step never stores anything except a
single mode-mismatch conflict event: the resulting state is unchanged or
the result of one `addConflictEvent` of kind `mode_mismatch`; each of
the three conflict kinds is reported iff at least two units are online
and its threshold is crossed (more than one distinct non-off mode; a
spread above 10°F; more than 3 mode changes in the trailing hour) —
in particular temperature-spread and rapid-switching conflicts are
reported in the cycle result but never appended to the conflict log. -/
theorem detectConflicts_correct (st : SystemState) (now : ℤ) :
    ((detectConflicts st now).2 = st ∨
      ∃ desc ids, (detectConflicts st now).2 =
        addConflictEventS st now ConflictType.mode_mismatch desc ids) ∧
    (ConflictKind.modeConflict ∈ (detectConflicts st now).1 ↔
      (2 ≤ (getOnlineMiniSplits st).length ∧
        1 < (activeUniqueModes (getOnlineMiniSplits st)).length)) ∧
    (ConflictKind.temperatureSpread ∈ (detectConflicts st now).1 ↔
      (2 ≤ (getOnlineMiniSplits st).length ∧
        10 < temperatureSpreadOf (getOnlineMiniSplits st))) ∧
    (ConflictKind.rapidSwitching ∈ (detectConflicts st now).1 ↔
      (2 ≤ (getOnlineMiniSplits st).length ∧
        3 < (getRecentModeChanges st 1 now).length)) := by
  unfold detectConflicts
  by_cases hlen : (getOnlineMiniSplits st).length < 2
  · have h2 : ¬ (2 ≤ (getOnlineMiniSplits st).length) := by omega
    simp [hlen, h2]
  · have h2 : 2 ≤ (getOnlineMiniSplits st).length := by omega
    rw [if_neg hlen]
    by_cases hmm : 1 < (activeUniqueModes (getOnlineMiniSplits st)).length
    · simp only [if_pos hmm]
      refine ⟨Or.inr ⟨_, _, rfl⟩, ?_, ?_, ?_⟩ <;>
        by_cases hsp : 10 < temperatureSpreadOf (getOnlineMiniSplits st) <;>
        by_cases hrp : 3 < (getRecentModeChanges st 1 now).length <;>
        simp [hsp, hrp, h2, hmm]
    · simp only [if_neg hmm]
      refine ⟨Or.inl trivial, ?_, ?_, ?_⟩ <;>
        by_cases hsp : 10 < temperatureSpreadOf (getOnlineMiniSplits st) <;>
        by_cases hrp : 3 < (getRecentModeChanges st 1 now).length <;>
        simp [hsp, hrp, h2, hmm]

/-- The per-action body of
`HeatPumpCoordinator.executeCoordinationActions`: a `setMode` command
only reaches the device (the stored unit entry is refreshed by the next
sync, not here); a `setTemperature` command additionally records the
coordinator-initiated write and merges the new target into the stored
unit with `manualOverrideActive` cleared. -/
def executeAction (st : SystemState) (now : ℤ) (a : CAction) : SystemState :=
  match a with
  | CAction.setMode _ _ => st
  | CAction.setTemperature d v =>
      let st1 := recordCoordinatorTemperatureSet st d v
      updateMiniSplitState st1 now d
        { targetTemperature := some v, manualTemperatureOverride := some false }

/-- `HeatPumpCoordinator.executeCoordinationActions`: when the device
manager is not authenticated the whole list is skipped; otherwise the
actions run sequentially, and a failing device call (`ok a = false`)
skips the state bookkeeping of that action without aborting the rest. -/
def executeCoordinationActions (auth : Bool) (ok : CAction → Bool) (now : ℤ)
    (st : SystemState) (actions : List CAction) : SystemState :=
  if auth then
    actions.foldl (fun s a => if ok a then executeAction s now a else s) st
  else st

/-- `HeatPumpCoordinator.emergencyOff`: emit `setMode off` for every
stored unit (online or not), execute best-effort, then set the global
mode to off. -/
def emergencyOff (auth : Bool) (ok : CAction → Bool) (now : ℤ) (st : SystemState)
    (reason : ModeChangeReason) : List CAction × SystemState :=
  let actions := st.miniSplits.map (fun u => CAction.setMode u.deviceId Mode.off)
  let st1 := executeCoordinationActions auth ok now st actions
  (actions, updateGlobalMode st1 Mode.off reason none now)

/-- `updateGlobalMode` always leaves the requested mode in place. -/
theorem updateGlobalMode_globalMode (st : SystemState) (m : Mode)
    (r : ModeChangeReason) (ot : Option ℚ) (now : ℤ) :
    (updateGlobalMode st m r ot now).globalMode = m := by
  unfold updateGlobalMode addModeChangeEventS
  by_cases h : st.globalMode = m
  · simp [h]
  · simp [h]

/-- C7 — `EmergencyOff` emits exactly one `setMode off` action per
configured unit, online or offline, regardless of override or priority
state, and the global mode is off afterwards. -/
theorem emergencyOff_correct (auth : Bool) (ok : CAction → Bool) (now : ℤ)
    (st : SystemState) (reason : ModeChangeReason) :
    ((emergencyOff auth ok now st reason).1.length = st.miniSplits.length) ∧
    (∀ u ∈ st.miniSplits,
      CAction.setMode u.deviceId Mode.off ∈ (emergencyOff auth ok now st reason).1) ∧
    (∀ a ∈ (emergencyOff auth ok now st reason).1,
      ∃ u ∈ st.miniSplits, a = CAction.setMode u.deviceId Mode.off) ∧
    ((emergencyOff auth ok now st reason).2.globalMode = Mode.off) := by
  refine ⟨?_, ?_, ?_, ?_⟩
  · simp [emergencyOff]
  · intro u hu
    simp only [emergencyOff]
    exact List.mem_map_of_mem _ hu
  · intro a ha
    simp only [emergencyOff] at ha
    rcases List.mem_map.mp ha with ⟨u, hu, hEq⟩
    exact ⟨u, hu, hEq.symm⟩
  · simp only [emergencyOff]
    exact updateGlobalMode_globalMode _ _ _ _ _

/-- A state holding one online and one offline unit. -/
def sampleTwoUnitState : SystemState :=
  { sampleState with
      miniSplits := [sampleUnit,
        { sampleUnit with deviceId := "dev-0002", isOnline := false }] }

/-- C7 witness: `EmergencyOff` on a state holding one online and one
offline unit emits `setMode off` for both and ends with global mode
off, at concrete inputs. -/
theorem emergencyOff_witness :
    (CAction.setMode sampleUnit.deviceId Mode.off ∈
      (emergencyOff true (fun _ => true) 5 sampleTwoUnitState
        ModeChangeReason.user_request).1) ∧
    ((emergencyOff true (fun _ => true) 5 sampleTwoUnitState
        ModeChangeReason.user_request).1.length = 2) ∧
    ((emergencyOff true (fun _ => true) 5 sampleTwoUnitState
        ModeChangeReason.user_request).2.globalMode = Mode.off) := by
  refine ⟨?_, ?_, ?_⟩
  · exact (emergencyOff_correct true (fun _ => true) 5 sampleTwoUnitState
      ModeChangeReason.user_request).2.1 sampleUnit (by decide)
  · exact (emergencyOff_correct true (fun _ => true) 5 sampleTwoUnitState
      ModeChangeReason.user_request).1
  · exact (emergencyOff_correct true (fun _ => true) 5 sampleTwoUnitState
      ModeChangeReason.user_request).2.2.2

/-- `sampleUnit` stored with a current temperature of exactly 0°F. -/
def zeroCurrentUnit : MiniSplitState :=
  { sampleUnit with currentTemperature := 0 }

/-- `sampleState` holding only the 0°F unit. -/
def zeroCurrentState : SystemState :=
  { sampleState with miniSplits := [zeroCurrentUnit] }

/-- C10 counterexample: executing a successful `setTemperature` action
for a unit whose stored `currentTemperature` is 0°F also rewrites that
field to the 70°F default (the JavaScript `existing?.currentTemperature
|| 70` merge treats the stored 0 as falsy), so the action changes more
than the target, override and timestamp fields. -/
theorem executeActions_frame_counterexample :
    ((findUnit zeroCurrentState "dev-0001").map
      (fun u => u.currentTemperature) = some 0) ∧
    ((findUnit (executeCoordinationActions true (fun _ => true) 5 zeroCurrentState
        [CAction.setTemperature "dev-0001" 68]) "dev-0001").map
      (fun u => u.currentTemperature) = some 70) := by
  constructor
  · decide
  · decide

/-- The merge result of a coordinator `setTemperature` write: only the
target, the override flag and the timestamp change. -/
def mergedSetTempUnit (u : MiniSplitState) (v : ℚ) (now : ℤ) : MiniSplitState :=
  { u with targetTemperature := v, manualTemperatureOverride := false,
           lastUpdated := now }

/-- `updateMiniSplitState` with a target-and-override update merges into
the existing entry touching only `targetTemperature`,
`manualTemperatureOverride` and `lastUpdated`, provided no stored field
is JavaScript-falsy. -/
theorem updateMiniSplitState_setTemp (st : SystemState) (now : ℤ)
    (u : MiniSplitState) (v : ℚ)
    (hfind : findUnit st u.deviceId = some u)
    (hname : u.name ≠ "") (hroom : u.room ≠ "")
    (hcurr : u.currentTemperature ≠ 0) (hpri : u.priority ≠ 0) :
    updateMiniSplitState st now u.deviceId
      { targetTemperature := some v, manualTemperatureOverride := some false } =
    { st with miniSplits := setUnit st.miniSplits (mergedSetTempUnit u v now) } := by
  unfold updateMiniSplitState mergedUnit
  rw [hfind]
  simp [jsOrQ, jsOrStr, hname, hroom, hcurr, hpri, mergedSetTempUnit]

/-- C10 amended — provided the stored entry of the unit has no
JavaScript-falsy field (nonempty name and room, nonzero current
temperature and priority): a successful `setTemperature` action changes
exactly that unit `targetTemperature`, `manualTemperatureOverride` and
`lastUpdated` fields plus the coordinator-set record; a `setMode` action
leaves the stored state unchanged (the stored mode is refreshed only by
the sync step); and without authentication execution changes nothing.
Entries of other units, the global mode, the global range, the history
and the conflict log are untouched. -/
theorem executeActions_frame_correct (st : SystemState) (now : ℤ)
    (ok : CAction → Bool) (d : String) (v : ℚ) (m : Mode) (u : MiniSplitState)
    (hfind : findUnit st d = some u)
    (hname : u.name ≠ "") (hroom : u.room ≠ "")
    (hcurr : u.currentTemperature ≠ 0) (hpri : u.priority ≠ 0)
    (hok : ok (CAction.setTemperature d v) = true) :
    (executeCoordinationActions true ok now st [CAction.setTemperature d v] =
      { st with
          miniSplits := setUnit st.miniSplits (mergedSetTempUnit u v now),
          coordinatorSetTemps :=
            (d, v) :: st.coordinatorSetTemps.filter (fun p => p.1 ≠ d) }) ∧
    (∀ u2 ∈ st.miniSplits, u2.deviceId ≠ d →
      u2 ∈ (executeCoordinationActions true ok now st
        [CAction.setTemperature d v]).miniSplits) ∧
    (∀ ok2 : CAction → Bool,
      executeCoordinationActions true ok2 now st [CAction.setMode d m] = st) ∧
    (∀ actions, executeCoordinationActions false ok now st actions = st) := by
  have hid : u.deviceId = d := by
    have hp := List.find?_some hfind
    exact of_decide_eq_true hp
  subst hid
  have hmain : executeCoordinationActions true ok now st
      [CAction.setTemperature u.deviceId v] =
      { st with
          miniSplits := setUnit st.miniSplits (mergedSetTempUnit u v now),
          coordinatorSetTemps :=
            (u.deviceId, v) :: st.coordinatorSetTemps.filter
              (fun p => p.1 ≠ u.deviceId) } := by
    have h1 : executeCoordinationActions true ok now st
        [CAction.setTemperature u.deviceId v] =
        executeAction st now (CAction.setTemperature u.deviceId v) := by
      simp [executeCoordinationActions, hok]
    rw [h1]
    simp only [executeAction]
    have hfind2 : findUnit (recordCoordinatorTemperatureSet st u.deviceId v)
        u.deviceId = some u := hfind
    rw [updateMiniSplitState_setTemp _ now u v hfind2 hname hroom hcurr hpri]
    rfl
  have humem : u ∈ st.miniSplits := List.mem_of_find?_eq_some hfind
  refine ⟨hmain, ?_, ?_, ?_⟩
  · intro u2 hu2 hne
    rw [hmain]
    have hany : st.miniSplits.any (fun x => x.deviceId = u.deviceId) = true :=
      List.any_eq_true.mpr ⟨u, humem, by simp⟩
    have hid2 : (mergedSetTempUnit u v now).deviceId = u.deviceId := rfl
    simp only [setUnit, hid2, hany, if_true]
    refine List.mem_map.mpr ⟨u2, hu2, ?_⟩
    exact if_neg hne
  · intro ok2
    cases hok2 : ok2 (CAction.setMode u.deviceId m) <;>
      simp [executeCoordinationActions, executeAction, hok2]
  · intro actions
    simp [executeCoordinationActions]

/-- C10 witness: on `sampleState`, executing a `setMode` action leaves
the stored state unchanged, and executing a `setTemperature 68` action
yields exactly the merged entry plus coordinator-set record, at concrete
inputs. -/
theorem executeActions_frame_witness :
    (executeCoordinationActions true (fun _ => true) 5 sampleState
      [CAction.setMode "dev-0001" Mode.heat] = sampleState) ∧
    (executeCoordinationActions true (fun _ => true) 5 sampleState
      [CAction.setTemperature "dev-0001" 68] =
      { sampleState with
          miniSplits := setUnit sampleState.miniSplits (mergedSetTempUnit sampleUnit 68 5),
          coordinatorSetTemps := [("dev-0001", 68)] }) := by
  constructor
  · exact (executeActions_frame_correct sampleState 5 (fun _ => true) "dev-0001" 68
      Mode.heat sampleUnit (by decide) (by decide) (by decide) (by decide) (by decide)
      rfl).2.2.1 (fun _ => true)
  · exact (executeActions_frame_correct sampleState 5 (fun _ => true) "dev-0001" 68
      Mode.heat sampleUnit (by decide) (by decide) (by decide) (by decide) (by decide)
      rfl).1

/-- A temperature value as reported by the device, tagged with its unit
(`unit === 'F'` or Celsius). -/
structure TempReading where
  value : ℚ
  isF : Bool
deriving DecidableEq, Repr

/-- `Math.round(tempValue)` when already Fahrenheit, else
`Math.round((tempValue * 9/5) + 32)`. -/
def readingToF (t : TempReading) : ℚ :=
  if t.isF then (jsRound t.value : ℚ) else (jsRound (t.value * 9 / 5 + 32) : ℚ)

/-- The fields of `status.components.main` that `syncDeviceStates`
reads: each capability may be absent. -/
structure DeviceReading where
  temperature : Option TempReading
  heatingSetpoint : Option TempReading
  coolingSetpoint : Option TempReading
  mode : Option Mode
deriving DecidableEq, Repr

/-- Outcome of `getDeviceStatus` for one device: the call throws
(`fail`), returns a status without a main component (`noMain`), or
returns readings. -/
inductive SyncResult where
  | fail
  | noMain
  | ok (r : DeviceReading)
deriving DecidableEq, Repr

/-- The update object built by `syncDeviceStates` from a reading:
online, fresh timestamp, normalized temperature, target from the heating
setpoint (falling back to the cooling setpoint), and the reported mode. -/
def syncUpdateOf (r : DeviceReading) (now : ℤ) : MiniSplitUpdate :=
  { isOnline := some true
    lastUpdated := some now
    currentTemperature := r.temperature.map readingToF
    targetTemperature :=
      match r.heatingSetpoint with
      | some sp => some (readingToF sp)
      | none => r.coolingSetpoint.map readingToF
    mode := r.mode }

/-- The per-device body of `syncDeviceStates`: a throwing status call
marks the unit offline; a status without a main component changes
nothing; readings are merged via `updateMiniSplitState`. -/
def syncDevice (readings : String → SyncResult) (now : ℤ) (st : SystemState)
    (d : String) : SystemState :=
  match readings d with
  | SyncResult.fail =>
      updateMiniSplitState st now d { isOnline := some false, lastUpdated := some now }
  | SyncResult.noMain => st
  | SyncResult.ok r => updateMiniSplitState st now d (syncUpdateOf r now)

/-- `HeatPumpCoordinator.syncDeviceStates`: skipped entirely without
authentication, else one status fetch per configured device id. -/
def syncDeviceStates (auth : Bool) (deviceIds : List String)
    (readings : String → SyncResult) (now : ℤ) (st : SystemState) : SystemState :=
  if auth then deviceIds.foldl (syncDevice readings now) st else st

/-- `HeatPumpCoordinator.runCoordinationCycle`: sync, weather refresh,
mode determination, conflict detection, action generation, action
execution, and the global-mode commit, returning the generated actions
and the final stored state. -/
def runCoordinationCycle (deviceIds : List String) (auth : Bool)
    (ok : CAction → Bool) (readings : String → SyncResult)
    (activeSchedule : Option Schedule) (weatherTemp : ℚ) (now : ℤ)
    (st : SystemState) : List CAction × SystemState :=
  let st1 := syncDeviceStates auth deviceIds readings now st
  let st2 := updateOutsideTemperature st1 weatherTemp now
  let systemMode := determineOptimalSystemMode st2 activeSchedule weatherTemp
  let st3 := (detectConflicts st2 now).2
  let acts := generateCoordinationActions (shouldRespectManualOverride st3) st3
    activeSchedule systemMode
  let st4 := executeCoordinationActions auth ok now st3 acts
  let st5 := updateGlobalMode st4 systemMode ModeChangeReason.coordinator_logic
    (some weatherTemp) now
  (acts, st5)

/-- How one executed command changes what device `d` reports next. -/
def applyCmdStep (d : String) (rd2 : DeviceReading) (a : CAction) : DeviceReading :=
  match a with
  | CAction.setMode d2 m =>
      if d2 = d then { rd2 with mode := some m } else rd2
  | CAction.setTemperature d2 v =>
      if d2 = d then
        { rd2 with heatingSetpoint := some { value := v, isF := true } }
      else rd2

/-- A device that received the commands of `acts` reports the commanded
mode and setpoint in its next reading; devices that report nothing keep
reporting nothing. -/
def applyCommandsToReading (acts : List CAction) (d : String) (r : SyncResult) :
    SyncResult :=
  match r with
  | SyncResult.fail => SyncResult.fail
  | SyncResult.noMain => SyncResult.noMain
  | SyncResult.ok rd => SyncResult.ok (acts.foldl (applyCmdStep d) rd)

/-- Per-device readings after the devices applied the commands of
`acts` and nothing else changed. -/
def applyCommandsToReadings (acts : List CAction)
    (readings : String → SyncResult) : String → SyncResult :=
  fun d => applyCommandsToReading acts d (readings d)

/-- The value of the last `setTemperature` command for device `d` in an
action list, if any. -/
def lastSetTempFor (acts : List CAction) (d : String) : Option ℚ :=
  acts.foldl (fun acc a =>
    match a with
    | CAction.setTemperature d2 v => if d2 = d then some v else acc
    | _ => acc) none

/-- The value of the last `setMode` command for device `d` in an action
list, if any. -/
def lastSetModeFor (acts : List CAction) (d : String) : Option Mode :=
  acts.foldl (fun acc a =>
    match a with
    | CAction.setMode d2 m => if d2 = d then some m else acc
    | _ => acc) none

/-- Replacing the keyed entry leaves `find?` for that key at the new
entry. -/
theorem find?_map_replace (l : List MiniSplitState) (w : MiniSplitState)
    (h : l.any (fun x => x.deviceId = w.deviceId) = true) :
    (l.map (fun x => if x.deviceId = w.deviceId then w else x)).find?
      (fun x => x.deviceId = w.deviceId) = some w := by
  induction l with
  | nil => simp at h
  | cons a t ih =>
      simp only [List.any_cons, Bool.or_eq_true] at h
      simp only [List.map_cons]
      by_cases ha : a.deviceId = w.deviceId
      · rw [if_pos ha]
        exact List.find?_cons_of_pos _ (by simp)
      · rw [if_neg ha]
        rw [List.find?_cons_of_neg _ (by simpa using ha)]
        apply ih
        rcases h with h | h
        · exact absurd (of_decide_eq_true h) ha
        · exact h

/-- Replacing the keyed entry does not move `find?` for other keys. -/
theorem find?_map_replace_ne (l : List MiniSplitState) (w : MiniSplitState)
    (d2 : String) (h : d2 ≠ w.deviceId) :
    (l.map (fun x => if x.deviceId = w.deviceId then w else x)).find?
      (fun x => x.deviceId = d2) = l.find? (fun x => x.deviceId = d2) := by
  induction l with
  | nil => rfl
  | cons a t ih =>
      simp only [List.map_cons]
      by_cases ha : a.deviceId = w.deviceId
      · rw [if_pos ha]
        have h1 : ¬ (w.deviceId = d2) := fun hh => h hh.symm
        have h2 : ¬ (a.deviceId = d2) := by rw [ha]; exact h1
        rw [List.find?_cons_of_neg _ (by simpa using h1),
          List.find?_cons_of_neg _ (by simpa using h2)]
        exact ih
      · rw [if_neg ha]
        by_cases h2 : a.deviceId = d2
        · rw [List.find?_cons_of_pos _ (by simpa using h2),
            List.find?_cons_of_pos _ (by simpa using h2)]
        · rw [List.find?_cons_of_neg _ (by simpa using h2),
            List.find?_cons_of_neg _ (by simpa using h2)]
          exact ih

/-- After `setUnit`, looking up the key of the stored entry returns it. -/
theorem find?_setUnit_eq (l : List MiniSplitState) (w : MiniSplitState)
    (d : String) (hw : w.deviceId = d) :
    (setUnit l w).find? (fun x => x.deviceId = d) = some w := by
  subst hw
  unfold setUnit
  by_cases h : l.any (fun x => x.deviceId = w.deviceId)
  · rw [if_pos h]
    exact find?_map_replace l w h
  · rw [if_neg h]
    rw [List.find?_append]
    have hnone : l.find? (fun x => x.deviceId = w.deviceId) = none := by
      rw [List.find?_eq_none]
      intro x hx hpx
      exact h (List.any_eq_true.mpr ⟨x, hx, hpx⟩)
    rw [hnone]
    simp [List.find?]

/-- After `setUnit`, lookups of other keys are unchanged. -/
theorem find?_setUnit_ne (l : List MiniSplitState) (w : MiniSplitState)
    (d2 : String) (h : d2 ≠ w.deviceId) :
    (setUnit l w).find? (fun x => x.deviceId = d2) =
      l.find? (fun x => x.deviceId = d2) := by
  unfold setUnit
  by_cases hany : l.any (fun x => x.deviceId = w.deviceId)
  · rw [if_pos hany]
    exact find?_map_replace_ne l w d2 h
  · rw [if_neg hany]
    rw [List.find?_append]
    cases hfl : l.find? (fun x => x.deviceId = d2) with
    | some e => rfl
    | none =>
        have hne : ¬ (w.deviceId = d2) := fun hh => h hh.symm
        simp [List.find?, hne]

/-- `updateMiniSplitState` stores exactly the merged entry. -/
theorem umss_miniSplits (st : SystemState) (now : ℤ) (d : String)
    (u : MiniSplitUpdate) :
    (updateMiniSplitState st now d u).miniSplits =
      setUnit st.miniSplits (mergedUnit (findUnit st d) d u now) := by
  unfold updateMiniSplitState
  cases findUnit st d <;> simp [addModeChangeEventS, apply_ite]

/-- `updateMiniSplitState` leaves the global fields, the coordinator-set
records and the conflict log unchanged. -/
theorem umss_frame (st : SystemState) (now : ℤ) (d : String) (u : MiniSplitUpdate) :
    (updateMiniSplitState st now d u).globalMode = st.globalMode ∧
    (updateMiniSplitState st now d u).globalMinTemp = st.globalMinTemp ∧
    (updateMiniSplitState st now d u).globalMaxTemp = st.globalMaxTemp ∧
    (updateMiniSplitState st now d u).coordinatorSetTemps = st.coordinatorSetTemps ∧
    (updateMiniSplitState st now d u).conflicts = st.conflicts := by
  unfold updateMiniSplitState
  cases findUnit st d <;> simp [addModeChangeEventS, apply_ite]

/-- Lookup of the freshly merged entry. -/
theorem findUnit_umss_self (st : SystemState) (now : ℤ) (d : String)
    (u : MiniSplitUpdate) :
    findUnit (updateMiniSplitState st now d u) d =
      some (mergedUnit (findUnit st d) d u now) := by
  rw [findUnit, umss_miniSplits]
  exact find?_setUnit_eq _ _ _ rfl

/-- Lookup of other devices is unchanged by a merge. -/
theorem findUnit_umss_ne (st : SystemState) (now : ℤ) (d : String)
    (u : MiniSplitUpdate) (d2 : String) (h : d2 ≠ d) :
    findUnit (updateMiniSplitState st now d u) d2 = findUnit st d2 := by
  rw [findUnit, umss_miniSplits, findUnit]
  exact find?_setUnit_ne _ _ _ h

/-- The device ids of a unit list. -/
def unitIds (l : List MiniSplitState) : List String :=
  l.map (fun u => u.deviceId)

/-- `setUnit` either keeps the key list or appends the new key. -/
theorem unitIds_setUnit (l : List MiniSplitState) (w : MiniSplitState) :
    unitIds (setUnit l w) =
      if l.any (fun x => x.deviceId = w.deviceId) then unitIds l
      else unitIds l ++ [w.deviceId] := by
  unfold setUnit unitIds
  by_cases h : l.any (fun x => x.deviceId = w.deviceId)
  · rw [if_pos h, if_pos h, List.map_map]
    apply List.map_congr_left
    intro x _
    by_cases hxw : x.deviceId = w.deviceId
    · simp [hxw]
    · simp [hxw]
  · rw [if_neg h, if_neg h, List.map_append]
    rfl

/-- `setUnit` preserves distinctness of the keys. -/
theorem nodup_unitIds_setUnit (l : List MiniSplitState) (w : MiniSplitState)
    (h : (unitIds l).Nodup) : (unitIds (setUnit l w)).Nodup := by
  rw [unitIds_setUnit]
  by_cases hany : l.any (fun x => x.deviceId = w.deviceId)
  · rwa [if_pos hany]
  · rw [if_neg hany]
    have hnotin : w.deviceId ∉ unitIds l := by
      intro hmem
      rcases List.mem_map.mp hmem with ⟨x, hx, hxid⟩
      exact hany (List.any_eq_true.mpr ⟨x, hx, by simp [hxid]⟩)
    rw [List.nodup_append]
    exact ⟨h, List.nodup_singleton _, by
      intro a ha hb
      rw [List.mem_singleton.mp hb] at ha
      exact hnotin ha⟩

/-- `updateMiniSplitState` preserves distinctness of the keys. -/
theorem nodup_unitIds_umss (st : SystemState) (now : ℤ) (d : String)
    (u : MiniSplitUpdate) (h : (unitIds st.miniSplits).Nodup) :
    (unitIds (updateMiniSplitState st now d u).miniSplits).Nodup := by
  rw [umss_miniSplits]
  exact nodup_unitIds_setUnit _ _ h

/-- With distinct keys, membership is the same as a successful keyed
lookup. -/
theorem mem_iff_find?_unit (l : List MiniSplitState)
    (hnd : (unitIds l).Nodup) (u : MiniSplitState) :
    u ∈ l ↔ l.find? (fun x => x.deviceId = u.deviceId) = some u := by
  constructor
  · intro hu
    induction l with
    | nil => cases hu
    | cons a t ih =>
        have hnd2 : (unitIds t).Nodup :=
          (List.nodup_cons.mp (by simpa [unitIds] using hnd)).2
        rcases List.mem_cons.mp hu with rfl | hu2
        · exact List.find?_cons_of_pos _ (by simp)
        · have hane : ¬ (a.deviceId = u.deviceId) := by
            intro he
            have hin : u.deviceId ∈ unitIds t := List.mem_map.mpr ⟨u, hu2, rfl⟩
            have hnotin : a.deviceId ∉ unitIds t :=
              (List.nodup_cons.mp (by simpa [unitIds] using hnd)).1
            rw [he] at hnotin
            exact hnotin hin
          rw [List.find?_cons_of_neg _ (by simpa using hane)]
          exact ih hnd2 hu2
  · intro h
    exact List.mem_of_find?_eq_some h

/-- The stored entry for a device after its sync step, as a function of
the previous entry and the fetch outcome. -/
def syncResultUnit (existing : Option MiniSplitState) (r : SyncResult)
    (d : String) (now : ℤ) : Option MiniSplitState :=
  match r with
  | SyncResult.fail =>
      some (mergedUnit existing d
        { isOnline := some false, lastUpdated := some now } now)
  | SyncResult.noMain => existing
  | SyncResult.ok rd => some (mergedUnit existing d (syncUpdateOf rd now) now)

/-- One sync step stores exactly the merged entry for its device. -/
theorem findUnit_syncDevice_self (readings : String → SyncResult) (now : ℤ)
    (st : SystemState) (d : String) :
    findUnit (syncDevice readings now st d) d =
      syncResultUnit (findUnit st d) (readings d) d now := by
  unfold syncDevice syncResultUnit
  cases readings d with
  | fail => exact findUnit_umss_self st now d _
  | noMain => rfl
  | ok r => exact findUnit_umss_self st now d _

/-- One sync step does not move entries of other devices. -/
theorem findUnit_syncDevice_ne (readings : String → SyncResult) (now : ℤ)
    (st : SystemState) (d d2 : String) (h : d2 ≠ d) :
    findUnit (syncDevice readings now st d) d2 = findUnit st d2 := by
  unfold syncDevice
  cases readings d with
  | fail => exact findUnit_umss_ne st now d _ d2 h
  | noMain => rfl
  | ok r => exact findUnit_umss_ne st now d _ d2 h

/-- One sync step leaves the global fields, coordinator records and the
conflict log unchanged. -/
theorem syncDevice_frame (readings : String → SyncResult) (now : ℤ)
    (st : SystemState) (d : String) :
    (syncDevice readings now st d).globalMode = st.globalMode ∧
    (syncDevice readings now st d).globalMinTemp = st.globalMinTemp ∧
    (syncDevice readings now st d).globalMaxTemp = st.globalMaxTemp ∧
    (syncDevice readings now st d).coordinatorSetTemps = st.coordinatorSetTemps ∧
    (syncDevice readings now st d).conflicts = st.conflicts := by
  unfold syncDevice
  cases readings d with
  | fail => exact umss_frame st now d _
  | noMain => exact ⟨rfl, rfl, rfl, rfl, rfl⟩
  | ok r => exact umss_frame st now d _

/-- One sync step preserves distinctness of the stored keys. -/
theorem nodup_syncDevice (readings : String → SyncResult) (now : ℤ)
    (st : SystemState) (d : String) (h : (unitIds st.miniSplits).Nodup) :
    (unitIds (syncDevice readings now st d).miniSplits).Nodup := by
  unfold syncDevice
  cases readings d with
  | fail => exact nodup_unitIds_umss st now d _ h
  | noMain => exact h
  | ok r => exact nodup_unitIds_umss st now d _ h

/-- The sync loop does not move entries of devices outside the id list. -/
theorem findUnit_syncFold_notMem (ids : List String)
    (readings : String → SyncResult) (now : ℤ) (st : SystemState) (d2 : String)
    (h : d2 ∉ ids) :
    findUnit (ids.foldl (syncDevice readings now) st) d2 = findUnit st d2 := by
  induction ids generalizing st with
  | nil => rfl
  | cons a t ih =>
      simp only [List.foldl_cons]
      rw [ih _ (fun hm => h (List.mem_cons_of_mem a hm))]
      exact findUnit_syncDevice_ne readings now st a d2
        (fun he => h (he ▸ List.mem_cons_self a t))

/-- The sync loop stores exactly the merged entry for each distinct
device id in the list. -/
theorem findUnit_syncFold_mem (ids : List String)
    (readings : String → SyncResult) (now : ℤ) (st : SystemState) (d : String)
    (hnd : ids.Nodup) (hd : d ∈ ids) :
    findUnit (ids.foldl (syncDevice readings now) st) d =
      syncResultUnit (findUnit st d) (readings d) d now := by
  induction ids generalizing st with
  | nil => cases hd
  | cons a t ih =>
      simp only [List.foldl_cons]
      rcases List.mem_cons.mp hd with he | hdt
      · subst he
        have hnotin : d ∉ t := (List.nodup_cons.mp hnd).1
        rw [findUnit_syncFold_notMem t readings now _ d hnotin]
        exact findUnit_syncDevice_self readings now st d
      · have hne : d ≠ a := by
          intro he
          subst he
          exact (List.nodup_cons.mp hnd).1 hdt
        rw [ih _ (List.nodup_cons.mp hnd).2 hdt]
        rw [findUnit_syncDevice_ne readings now st a d hne]

/-- The sync loop leaves global fields, coordinator records and the
conflict log unchanged. -/
theorem syncFold_frame (ids : List String) (readings : String → SyncResult)
    (now : ℤ) (st : SystemState) :
    (ids.foldl (syncDevice readings now) st).globalMode = st.globalMode ∧
    (ids.foldl (syncDevice readings now) st).globalMinTemp = st.globalMinTemp ∧
    (ids.foldl (syncDevice readings now) st).globalMaxTemp = st.globalMaxTemp ∧
    (ids.foldl (syncDevice readings now) st).coordinatorSetTemps =
      st.coordinatorSetTemps ∧
    (ids.foldl (syncDevice readings now) st).conflicts = st.conflicts := by
  induction ids generalizing st with
  | nil => exact ⟨rfl, rfl, rfl, rfl, rfl⟩
  | cons a t ih =>
      simp only [List.foldl_cons]
      have h1 := syncDevice_frame readings now st a
      have h2 := ih (syncDevice readings now st a)
      exact ⟨h2.1.trans h1.1, h2.2.1.trans h1.2.1, h2.2.2.1.trans h1.2.2.1,
        h2.2.2.2.1.trans h1.2.2.2.1, h2.2.2.2.2.trans h1.2.2.2.2⟩

/-- The sync loop preserves distinctness of the stored keys. -/
theorem nodup_syncFold (ids : List String) (readings : String → SyncResult)
    (now : ℤ) (st : SystemState) (h : (unitIds st.miniSplits).Nodup) :
    (unitIds (ids.foldl (syncDevice readings now) st).miniSplits).Nodup := by
  induction ids generalizing st with
  | nil => exact h
  | cons a t ih =>
      simp only [List.foldl_cons]
      exact ih _ (nodup_syncDevice readings now st a h)

/-- The device an action addresses. -/
def actionDevice : CAction → String
  | CAction.setMode d _ => d
  | CAction.setTemperature d _ => d

/-- Executing with every device call succeeding. -/
def execAll (now : ℤ) (st : SystemState) (acts : List CAction) : SystemState :=
  acts.foldl (fun s a => executeAction s now a) st

/-- With authentication and no device failures, execution is the plain
fold of `executeAction`. -/
theorem executeCoordinationActions_allOk (now : ℤ) (st : SystemState)
    (acts : List CAction) :
    executeCoordinationActions true (fun _ => true) now st acts =
      execAll now st acts := by
  unfold executeCoordinationActions execAll
  rfl

/-- Filtering out one key does not change the keyed lookup of another. -/
theorem find?_filter_key (l : List (String × ℚ)) (d d2 : String)
    (h : ¬ (d = d2)) :
    (l.filter (fun p => decide (p.1 ≠ d2))).find? (fun p => p.1 = d) =
      l.find? (fun p => p.1 = d) := by
  induction l with
  | nil => rfl
  | cons a t ih =>
      by_cases ha2 : a.1 = d2
      · have had : ¬ (a.1 = d) := by
          rw [ha2]
          exact fun hh => h hh.symm
        rw [List.filter_cons_of_neg (by simp [ha2]),
          List.find?_cons_of_neg _ (by simpa using had)]
        exact ih
      · rw [List.filter_cons_of_pos (by simpa using ha2)]
        by_cases had : a.1 = d
        · rw [List.find?_cons_of_pos _ (by simpa using had),
            List.find?_cons_of_pos _ (by simpa using had)]
        · rw [List.find?_cons_of_neg _ (by simpa using had),
            List.find?_cons_of_neg _ (by simpa using had)]
          exact ih

/-- The coordinator-set record after `recordCoordinatorTemperatureSet`. -/
theorem lookup_record (st : SystemState) (d2 : String) (v : ℚ) (d : String) :
    lookupCoordinatorSet (recordCoordinatorTemperatureSet st d2 v) d =
      if d2 = d then some v else lookupCoordinatorSet st d := by
  unfold lookupCoordinatorSet recordCoordinatorTemperatureSet
  by_cases h : d2 = d
  · subst h
    simp [List.find?]
  · rw [if_neg h]
    have hcons : ((d2, v) :: st.coordinatorSetTemps.filter
        (fun p => decide (p.1 ≠ d2))).find? (fun p => p.1 = d) =
        (st.coordinatorSetTemps.filter (fun p => decide (p.1 ≠ d2))).find?
          (fun p => p.1 = d) :=
      List.find?_cons_of_neg _ (by simpa using h)
    rw [hcons, find?_filter_key st.coordinatorSetTemps d d2 (fun hh => h hh.symm)]

/-- `updateMiniSplitState` does not read or write coordinator records. -/
theorem lookup_umss (st : SystemState) (now : ℤ) (d2 : String)
    (u : MiniSplitUpdate) (d : String) :
    lookupCoordinatorSet (updateMiniSplitState st now d2 u) d =
      lookupCoordinatorSet st d := by
  unfold lookupCoordinatorSet
  rw [(umss_frame st now d2 u).2.2.2.1]

/-- Executing an action addressed at another device moves neither the
stored entry nor the coordinator record of `d`. -/
theorem executeAction_proj_ne (st : SystemState) (now : ℤ) (a : CAction)
    (d : String) (h : actionDevice a ≠ d) :
    findUnit (executeAction st now a) d = findUnit st d ∧
    lookupCoordinatorSet (executeAction st now a) d = lookupCoordinatorSet st d := by
  cases a with
  | setMode d2 m => exact ⟨rfl, rfl⟩
  | setTemperature d2 v =>
      have hne : d2 ≠ d := h
      constructor
      · simp only [executeAction]
        rw [findUnit_umss_ne _ now d2 _ d (fun hh => hne hh.symm)]
        rfl
      · simp only [executeAction]
        rw [lookup_umss, lookup_record, if_neg hne]

/-- Executing a successful `setTemperature` stores the merge of the
previous entry and records the write. -/
theorem executeAction_setTemp_proj (st : SystemState) (now : ℤ) (d : String)
    (v : ℚ) :
    findUnit (executeAction st now (CAction.setTemperature d v)) d =
      some (mergedUnit (findUnit st d) d
        { targetTemperature := some v, manualTemperatureOverride := some false } now) ∧
    lookupCoordinatorSet (executeAction st now (CAction.setTemperature d v)) d =
      some v := by
  constructor
  · simp only [executeAction]
    rw [findUnit_umss_self]
    rfl
  · simp only [executeAction]
    rw [lookup_umss, lookup_record, if_pos rfl]

/-- Executing any action leaves the global mode and range unchanged. -/
theorem executeAction_globals (st : SystemState) (now : ℤ) (a : CAction) :
    (executeAction st now a).globalMode = st.globalMode ∧
    (executeAction st now a).globalMinTemp = st.globalMinTemp ∧
    (executeAction st now a).globalMaxTemp = st.globalMaxTemp := by
  cases a with
  | setMode d m => exact ⟨rfl, rfl, rfl⟩
  | setTemperature d v =>
      have h := umss_frame (recordCoordinatorTemperatureSet st d v) now d
        { targetTemperature := some v, manualTemperatureOverride := some false }
      exact ⟨h.1, h.2.1, h.2.2.1⟩

/-- `execAll` over an appended list is sequential execution. -/
theorem execAll_append (now : ℤ) (st : SystemState) (l1 l2 : List CAction) :
    execAll now st (l1 ++ l2) = execAll now (execAll now st l1) l2 :=
  List.foldl_append ..

/-- `execAll` leaves the global mode and range unchanged. -/
theorem execAll_globals (now : ℤ) (st : SystemState) (acts : List CAction) :
    (execAll now st acts).globalMode = st.globalMode ∧
    (execAll now st acts).globalMinTemp = st.globalMinTemp ∧
    (execAll now st acts).globalMaxTemp = st.globalMaxTemp := by
  induction acts generalizing st with
  | nil => exact ⟨rfl, rfl, rfl⟩
  | cons a t ih =>
      have h1 := executeAction_globals st now a
      have h2 := ih (executeAction st now a)
      exact ⟨h2.1.trans h1.1, h2.2.1.trans h1.2.1, h2.2.2.trans h1.2.2⟩

/-- A fold over actions that all address other devices preserves any
projection that single such steps preserve. -/
theorem foldl_proj_invariant {σ V : Type} (step : σ → CAction → σ) (P : σ → V)
    (d : String) (hP : ∀ s a, actionDevice a ≠ d → P (step s a) = P s)
    (acts : List CAction) (s : σ) (h : ∀ a ∈ acts, actionDevice a ≠ d) :
    P (acts.foldl step s) = P s := by
  induction acts generalizing s with
  | nil => rfl
  | cons a t ih =>
      simp only [List.foldl_cons]
      rw [ih _ (fun b hb => h b (List.mem_cons_of_mem a hb))]
      exact hP s a (h a (List.mem_cons_self a t))

/-- Folding the flat-mapped action list of a keyed unit list acts on the
projection at device `d` exactly as the action block of the unique unit
with that key. -/
theorem foldl_flatMap_proj {σ V : Type} (step : σ → CAction → σ) (P : σ → V)
    (f : MiniSplitState → List CAction) (units : List MiniSplitState)
    (u1 : MiniSplitState) (g : V → V)
    (hnd : (unitIds units).Nodup) (hu : u1 ∈ units)
    (hf : ∀ u2 ∈ units, ∀ a ∈ f u2, actionDevice a = u2.deviceId)
    (hP : ∀ s a, actionDevice a ≠ u1.deviceId → P (step s a) = P s)
    (hg : ∀ s : σ, P ((f u1).foldl step s) = g (P s)) :
    ∀ s : σ, P ((units.flatMap f).foldl step s) = g (P s) := by
  induction units with
  | nil => cases hu
  | cons a t ih =>
      intro s
      rw [List.flatMap_cons, List.foldl_append]
      have hnda : a.deviceId ∉ unitIds t :=
        (List.nodup_cons.mp (by simpa [unitIds] using hnd)).1
      have hndt : (unitIds t).Nodup :=
        (List.nodup_cons.mp (by simpa [unitIds] using hnd)).2
      rcases List.mem_cons.mp hu with he | hut
      · subst he
        have havoid : ∀ b ∈ t.flatMap f, actionDevice b ≠ u1.deviceId := by
          intro b hb
          rcases List.mem_flatMap.mp hb with ⟨u2, hu2, hbmem⟩
          rw [hf u2 (List.mem_cons_of_mem _ hu2) b hbmem]
          intro he2
          exact hnda (he2 ▸ List.mem_map.mpr ⟨u2, hu2, rfl⟩)
        rw [foldl_proj_invariant step P u1.deviceId hP _ _ havoid]
        exact hg s
      · have hane : a.deviceId ≠ u1.deviceId := by
          intro he
          exact hnda (he ▸ List.mem_map.mpr ⟨u1, hut, rfl⟩)
        have h1 : P ((f a).foldl step s) = P s := by
          apply foldl_proj_invariant step P u1.deviceId hP
          intro b hb
          rw [hf a (List.mem_cons_self a t) b hb]
          exact hane
        rw [ih hndt hut (fun u2 hu2 => hf u2 (List.mem_cons_of_mem a hu2)), h1]

/-- All actions of a per-unit block address that unit. -/
theorem actionDevice_perUnit (respect : MiniSplitState → Bool) (st : SystemState)
    (sched : Option Schedule) (M : Mode) (u : MiniSplitState) :
    ∀ a ∈ perUnitActions respect st sched M u, actionDevice a = u.deviceId := by
  intro a ha
  unfold perUnitActions at ha
  cases hr : respect u <;> rw [hr] at ha <;>
    by_cases hm : u.mode = M <;>
    by_cases h1 : 1 ≤ jsAbs (desiredTemp st sched M u - u.targetTemperature) <;>
    simp [hm, h1] at ha <;>
    first
      | (rcases ha with ha | ha <;> (subst ha; rfl))
      | (subst ha; rfl)

/-- Keys of a filtered unit list stay distinct. -/
theorem nodup_unitIds_filter (l : List MiniSplitState) (p : MiniSplitState → Bool)
    (h : (unitIds l).Nodup) : (unitIds (l.filter p)).Nodup := by
  unfold unitIds at h ⊢
  exact ((List.filter_sublist l).map (fun u => u.deviceId)).nodup h

/-- The conflict-detection step touches only the conflict log. -/
theorem detect_frame (st : SystemState) (now : ℤ) :
    (detectConflicts st now).2.miniSplits = st.miniSplits ∧
    (detectConflicts st now).2.globalMode = st.globalMode ∧
    (detectConflicts st now).2.globalMinTemp = st.globalMinTemp ∧
    (detectConflicts st now).2.globalMaxTemp = st.globalMaxTemp ∧
    (detectConflicts st now).2.coordinatorSetTemps = st.coordinatorSetTemps := by
  unfold detectConflicts
  by_cases hlen : (getOnlineMiniSplits st).length < 2
  · simp [hlen]
  · rw [if_neg hlen]
    by_cases hmm : 1 < (activeUniqueModes (getOnlineMiniSplits st)).length <;>
      simp [hmm, addConflictEventS]

/-- The global-mode commit touches neither units, range, nor records. -/
theorem ugm_frame (st : SystemState) (m : Mode) (r : ModeChangeReason)
    (ot : Option ℚ) (now : ℤ) :
    (updateGlobalMode st m r ot now).miniSplits = st.miniSplits ∧
    (updateGlobalMode st m r ot now).globalMinTemp = st.globalMinTemp ∧
    (updateGlobalMode st m r ot now).globalMaxTemp = st.globalMaxTemp ∧
    (updateGlobalMode st m r ot now).coordinatorSetTemps = st.coordinatorSetTemps := by
  unfold updateGlobalMode
  by_cases h : st.globalMode = m <;> simp [h, addModeChangeEventS]

/-- Setpoints agree between states with the same global range. -/
theorem setpoints_congr (st st2 : SystemState) (sched : Option Schedule)
    (hmin : st.globalMinTemp = st2.globalMinTemp)
    (hmax : st.globalMaxTemp = st2.globalMaxTemp) :
    heatingSetpointOf st sched = heatingSetpointOf st2 sched ∧
    coolingSetpointOf st sched = coolingSetpointOf st2 sched := by
  cases sched with
  | none => exact ⟨hmin, hmax⟩
  | some s =>
      unfold heatingSetpointOf coolingSetpointOf
      rw [hmin, hmax]
      exact ⟨rfl, rfl⟩

/-- The `|| 70` fallback never yields 0. -/
theorem jsOrQ70_ne_zero (a : ℚ) : jsOrQ a 70 ≠ 0 := by
  unfold jsOrQ
  by_cases h : a = 0
  · rw [if_pos h]
    norm_num
  · rwa [if_neg h]

/-- `Math.round` lands within half a degree. -/
theorem jsAbs_sub_jsRound_le (q : ℚ) : jsAbs (q - (jsRound q : ℚ)) ≤ 1/2 := by
  unfold jsAbs jsRound
  have h1 : (⌊q + 1/2⌋ : ℚ) ≤ q + 1/2 := Int.floor_le _
  have h2 : q + 1/2 - 1 < (⌊q + 1/2⌋ : ℚ) := Int.sub_one_lt_floor _
  by_cases h : q - (⌊q + 1/2⌋ : ℚ) < 0
  · rw [if_pos h]
    linarith
  · rw [if_neg h]
    linarith

/-- A unit already in the target mode whose temperature needs no change
contributes no action. -/
theorem perUnitActions_eq_nil (respect : MiniSplitState → Bool) (st : SystemState)
    (sched : Option Schedule) (M : Mode) (u : MiniSplitState)
    (hm : u.mode = M)
    (h : respect u = true ∨
      jsAbs (desiredTemp st sched M u - u.targetTemperature) < 1) :
    perUnitActions respect st sched M u = [] := by
  unfold perUnitActions
  rcases h with h | h
  · simp [h, hm]
  · have h1 : ¬ (1 ≤ jsAbs (desiredTemp st sched M u - u.targetTemperature)) :=
      not_le.mpr h
    cases hr : respect u <;> simp [hm, h1]

/-- An action list over online units all of whose blocks are empty is
empty. -/
theorem generate_eq_nil (respect : MiniSplitState → Bool) (st : SystemState)
    (sched : Option Schedule) (M : Mode)
    (h : ∀ u ∈ getOnlineMiniSplits st,
      perUnitActions respect st sched M u = []) :
    generateCoordinationActions respect st sched M = [] :=
  List.flatMap_eq_nil_iff.mpr h

/-- The per-unit action block, written as two independent optional
actions. -/
theorem perUnitActions_cases (respect : MiniSplitState → Bool) (st : SystemState)
    (sched : Option Schedule) (M : Mode) (u : MiniSplitState) :
    perUnitActions respect st sched M u =
      (if u.mode ≠ M then [CAction.setMode u.deviceId M] else []) ++
      (if respect u = false ∧
          1 ≤ jsAbs (desiredTemp st sched M u - u.targetTemperature)
       then [CAction.setTemperature u.deviceId (desiredTemp st sched M u)]
       else []) := by
  unfold perUnitActions
  cases hr : respect u <;> simp

/-- Effect of one per-unit action block on the stored entry and the
coordinator record of that unit. -/
def execEntryEffect (respect : MiniSplitState → Bool) (st3 : SystemState)
    (sched : Option Schedule) (M : Mode) (u1 : MiniSplitState) (now : ℤ) :
    Option MiniSplitState × Option ℚ → Option MiniSplitState × Option ℚ :=
  fun p =>
    if respect u1 = false ∧
        1 ≤ jsAbs (desiredTemp st3 sched M u1 - u1.targetTemperature) then
      (some (mergedUnit p.1 u1.deviceId
        { targetTemperature := some (desiredTemp st3 sched M u1),
          manualTemperatureOverride := some false } now),
       some (desiredTemp st3 sched M u1))
    else p

/-- A `setMode` command leaves the stored state unchanged. -/
theorem exec_setMode_id (s : SystemState) (now : ℤ) (d : String) (m : Mode) :
    executeAction s now (CAction.setMode d m) = s := rfl

/-- Executing one per-unit action block realizes `execEntryEffect`. -/
theorem exec_perUnit_effect (respect : MiniSplitState → Bool) (st3 : SystemState)
    (sched : Option Schedule) (M : Mode) (u1 : MiniSplitState) (now : ℤ) :
    ∀ s : SystemState,
      (fun s2 => (findUnit s2 u1.deviceId, lookupCoordinatorSet s2 u1.deviceId))
        ((perUnitActions respect st3 sched M u1).foldl
          (fun s2 a => executeAction s2 now a) s) =
      execEntryEffect respect st3 sched M u1 now
        (findUnit s u1.deviceId, lookupCoordinatorSet s u1.deviceId) := by
  intro s
  rw [perUnitActions_cases]
  unfold execEntryEffect
  have htemp := executeAction_setTemp_proj s now u1.deviceId
    (desiredTemp st3 sched M u1)
  by_cases hcond : respect u1 = false ∧
      1 ≤ jsAbs (desiredTemp st3 sched M u1 - u1.targetTemperature) <;>
    by_cases hm : u1.mode = M <;>
    simp only [hcond, hm, if_true, if_false, ite_true, ite_false,
      not_false_eq_true, not_true_eq_false, ne_eq, List.nil_append,
      List.append_nil, List.foldl_cons, List.foldl_nil, List.singleton_append,
      exec_setMode_id] <;>
    first
      | rfl
      | simp [hm, htemp.1, htemp.2]

/-- Effect of one per-unit action block on what the device reports next. -/
def readingCmdEffect (respect : MiniSplitState → Bool) (st3 : SystemState)
    (sched : Option Schedule) (M : Mode) (u1 : MiniSplitState) :
    DeviceReading → DeviceReading :=
  fun rd =>
    let rd1 := if u1.mode ≠ M then { rd with mode := some M } else rd
    let sp : TempReading := { value := desiredTemp st3 sched M u1, isF := true }
    if respect u1 = false ∧
        1 ≤ jsAbs (desiredTemp st3 sched M u1 - u1.targetTemperature) then
      { rd1 with heatingSetpoint := some sp }
    else rd1

/-- Applying one per-unit action block to a reading realizes
`readingCmdEffect`. -/
theorem reading_perUnit_effect (respect : MiniSplitState → Bool)
    (st3 : SystemState) (sched : Option Schedule) (M : Mode)
    (u1 : MiniSplitState) :
    ∀ rd : DeviceReading,
      (perUnitActions respect st3 sched M u1).foldl (applyCmdStep u1.deviceId) rd =
        readingCmdEffect respect st3 sched M u1 rd := by
  intro rd
  rw [perUnitActions_cases]
  unfold readingCmdEffect
  by_cases hcond : respect u1 = false ∧
      1 ≤ jsAbs (desiredTemp st3 sched M u1 - u1.targetTemperature) <;>
    by_cases hm : u1.mode = M <;>
    simp [hcond, hm, applyCmdStep]

/-- Executing the whole generated action list affects the stored entry
and coordinator record of an online unit exactly as its own block. -/
theorem exec_generate_entry (respect : MiniSplitState → Bool) (st3 : SystemState)
    (sched : Option Schedule) (M : Mode) (now : ℤ) (u1 : MiniSplitState)
    (hnd : (unitIds st3.miniSplits).Nodup)
    (hfind : findUnit st3 u1.deviceId = some u1)
    (hon : u1.isOnline = true) :
    (findUnit (execAll now st3
        (generateCoordinationActions respect st3 sched M)) u1.deviceId,
     lookupCoordinatorSet (execAll now st3
        (generateCoordinationActions respect st3 sched M)) u1.deviceId) =
    execEntryEffect respect st3 sched M u1 now
      (some u1, lookupCoordinatorSet st3 u1.deviceId) := by
  have humem : u1 ∈ st3.miniSplits := List.mem_of_find?_eq_some hfind
  have honline : u1 ∈ getOnlineMiniSplits st3 :=
    List.mem_filter.mpr ⟨humem, by simp [hon]⟩
  have hndon : (unitIds (getOnlineMiniSplits st3)).Nodup :=
    nodup_unitIds_filter _ _ hnd
  have hmain := foldl_flatMap_proj (fun s2 a => executeAction s2 now a)
    (fun s2 => (findUnit s2 u1.deviceId, lookupCoordinatorSet s2 u1.deviceId))
    (perUnitActions respect st3 sched M) (getOnlineMiniSplits st3) u1
    (execEntryEffect respect st3 sched M u1 now)
    hndon honline
    (fun u2 hu2 => actionDevice_perUnit respect st3 sched M u2)
    (fun s2 a ha => by
      have h := executeAction_proj_ne s2 now a u1.deviceId ha
      simp [h.1, h.2])
    (exec_perUnit_effect respect st3 sched M u1 now) st3
  unfold generateCoordinationActions execAll
  rw [hmain, hfind]

/-- Applying the whole generated action list to the reading of an online
unit acts exactly as its own block. -/
theorem apply_generate_reading (respect : MiniSplitState → Bool)
    (st3 : SystemState) (sched : Option Schedule) (M : Mode)
    (u1 : MiniSplitState) (rd : DeviceReading)
    (hnd : (unitIds st3.miniSplits).Nodup)
    (hfind : findUnit st3 u1.deviceId = some u1)
    (hon : u1.isOnline = true) :
    applyCommandsToReading (generateCoordinationActions respect st3 sched M)
      u1.deviceId (SyncResult.ok rd) =
      SyncResult.ok (readingCmdEffect respect st3 sched M u1 rd) := by
  have humem : u1 ∈ st3.miniSplits := List.mem_of_find?_eq_some hfind
  have honline : u1 ∈ getOnlineMiniSplits st3 :=
    List.mem_filter.mpr ⟨humem, by simp [hon]⟩
  have hndon : (unitIds (getOnlineMiniSplits st3)).Nodup :=
    nodup_unitIds_filter _ _ hnd
  have hmain := foldl_flatMap_proj (applyCmdStep u1.deviceId)
    (fun rd2 => rd2)
    (perUnitActions respect st3 sched M) (getOnlineMiniSplits st3) u1
    (readingCmdEffect respect st3 sched M u1)
    hndon honline
    (fun u2 hu2 => actionDevice_perUnit respect st3 sched M u2)
    (fun rd2 a ha => by
      cases a with
      | setMode d2 m =>
          have : d2 ≠ u1.deviceId := ha
          simp [applyCmdStep, this]
      | setTemperature d2 v =>
          have : d2 ≠ u1.deviceId := ha
          simp [applyCmdStep, this])
    (reading_perUnit_effect respect st3 sched M u1) rd
  show SyncResult.ok ((getOnlineMiniSplits st3).flatMap
      (perUnitActions respect st3 sched M) |>.foldl (applyCmdStep u1.deviceId) rd) =
    SyncResult.ok (readingCmdEffect respect st3 sched M u1 rd)
  rw [hmain]

/-- Execution preserves distinctness of the stored keys. -/
theorem nodup_execAll (now : ℤ) (st : SystemState) (acts : List CAction)
    (h : (unitIds st.miniSplits).Nodup) :
    (unitIds (execAll now st acts).miniSplits).Nodup := by
  induction acts generalizing st with
  | nil => exact h
  | cons a t ih =>
      apply ih
      cases a with
      | setMode d m => exact h
      | setTemperature d v =>
          exact nodup_unitIds_umss (recordCoordinatorTemperatureSet st d v) now d _ h

/-- Same unit list, same lookups. -/
theorem findUnit_eq_of_miniSplits (st st2 : SystemState) (d : String)
    (h : st.miniSplits = st2.miniSplits) : findUnit st d = findUnit st2 d := by
  unfold findUnit
  rw [h]

/-- Same coordinator records, same lookups. -/
theorem lookup_eq_of_records (st st2 : SystemState) (d : String)
    (h : st.coordinatorSetTemps = st2.coordinatorSetTemps) :
    lookupCoordinatorSet st d = lookupCoordinatorSet st2 d := by
  unfold lookupCoordinatorSet
  rw [h]

/-- Same unit list, same online units. -/
theorem getOnline_eq_of_miniSplits (st st2 : SystemState)
    (h : st.miniSplits = st2.miniSplits) :
    getOnlineMiniSplits st = getOnlineMiniSplits st2 := by
  unfold getOnlineMiniSplits
  rw [h]

/-- The two if branches of `determineOptimalSystemMode`. -/
theorem dOSM_spec (st : SystemState) (sched : Option Schedule) (w : ℚ) :
    ((getOnlineMiniSplits st).length = 0 →
      determineOptimalSystemMode st sched w = Mode.off) ∧
    (0 < (getOnlineMiniSplits st).length →
      determineOptimalSystemMode st sched w =
        (if w < heatingSetpointOf st sched then Mode.heat
         else if w > coolingSetpointOf st sched then Mode.cool
         else st.globalMode)) := by
  unfold determineOptimalSystemMode
  constructor
  · intro h
    simp [h]
  · intro h
    rw [if_neg (by omega)]

/-- After a sync pass, every online unit id comes from the configured
id list, provided that held of the pre-sync state. -/
theorem online_sub_ids (ids : List String) (readings : String → SyncResult)
    (now : ℤ) (st : SystemState)
    (hndst : (unitIds st.miniSplits).Nodup)
    (honline : ∀ u ∈ st.miniSplits, u.isOnline = true → u.deviceId ∈ ids) :
    ∀ u2 ∈ getOnlineMiniSplits (ids.foldl (syncDevice readings now) st),
      u2.deviceId ∈ ids := by
  intro u2 hu2
  rcases List.mem_filter.mp hu2 with ⟨hmem, honl⟩
  by_contra hnotin
  have hndsync : (unitIds (ids.foldl (syncDevice readings now) st).miniSplits).Nodup :=
    nodup_syncFold ids readings now st hndst
  have hf : findUnit (ids.foldl (syncDevice readings now) st) u2.deviceId = some u2 :=
    (mem_iff_find?_unit _ hndsync u2).mp hmem
  rw [findUnit_syncFold_notMem ids readings now st u2.deviceId hnotin] at hf
  exact hnotin (honline u2 (List.mem_of_find?_eq_some hf) (by simpa using honl))

/-- The `|| 70` fallback is idempotent. -/
theorem jsOrQ70_idem (a : ℚ) : jsOrQ (jsOrQ a 70) 70 = jsOrQ a 70 := by
  unfold jsOrQ
  by_cases h : a = 0
  · norm_num [h]
  · simp [h]

/-- An entry of the stored list after `setUnit` is the new entry or an
old one. -/
theorem mem_setUnit (l : List MiniSplitState) (w u2 : MiniSplitState)
    (h : u2 ∈ setUnit l w) : u2 = w ∨ u2 ∈ l := by
  unfold setUnit at h
  by_cases hany : l.any (fun x => x.deviceId = w.deviceId)
  · rw [if_pos hany] at h
    rcases List.mem_map.mp h with ⟨x, hx, hxe⟩
    by_cases hxd : x.deviceId = w.deviceId
    · rw [if_pos hxd] at hxe
      exact Or.inl hxe.symm
    · rw [if_neg hxd] at hxe
      exact Or.inr (hxe ▸ hx)
  · rw [if_neg hany] at h
    rcases List.mem_append.mp h with h | h
    · exact Or.inr h
    · exact Or.inl (List.mem_singleton.mp h)

/-- A successful keyed lookup returns an entry carrying that key. -/
theorem findUnit_deviceId (st : SystemState) (d : String) (e : MiniSplitState)
    (h : findUnit st d = some e) : e.deviceId = d := by
  unfold findUnit at h
  have := List.find?_some h
  simpa using this

/-- Recording a coordinator write does not move stored entries. -/
theorem findUnit_record (st : SystemState) (d2 : String) (v : ℚ) (d : String) :
    findUnit (recordCoordinatorTemperatureSet st d2 v) d = findUnit st d := rfl

/-- One merge keeps every online stored id inside `ids`, provided the
merged entry itself complies. -/
theorem onlineIds_umss (ids : List String) (st : SystemState) (now : ℤ)
    (d : String) (upd : MiniSplitUpdate)
    (h : ∀ u ∈ st.miniSplits, u.isOnline = true → u.deviceId ∈ ids)
    (hd : (mergedUnit (findUnit st d) d upd now).isOnline = true → d ∈ ids) :
    ∀ u ∈ (updateMiniSplitState st now d upd).miniSplits,
      u.isOnline = true → u.deviceId ∈ ids := by
  intro u2 hu2 hon
  rw [umss_miniSplits] at hu2
  rcases mem_setUnit _ _ _ hu2 with he | hmem
  · subst he
    exact hd hon
  · exact h u2 hmem hon

/-- Executing one action keeps every online stored id inside `ids`. -/
theorem onlineIds_exec (ids : List String) (st : SystemState) (now : ℤ)
    (a : CAction)
    (h : ∀ u ∈ st.miniSplits, u.isOnline = true → u.deviceId ∈ ids) :
    ∀ u ∈ (executeAction st now a).miniSplits,
      u.isOnline = true → u.deviceId ∈ ids := by
  cases a with
  | setMode d m => exact h
  | setTemperature d v =>
      show ∀ u ∈ (updateMiniSplitState (recordCoordinatorTemperatureSet st d v)
          now d { targetTemperature := some v,
                  manualTemperatureOverride := some false }).miniSplits,
        u.isOnline = true → u.deviceId ∈ ids
      apply onlineIds_umss
      · exact h
      · intro hon
        rw [findUnit_record] at hon
        cases hf : findUnit st d with
        | none =>
            rw [hf] at hon
            simp [mergedUnit] at hon
        | some e =>
            rw [hf] at hon
            simp only [mergedUnit, Option.getD_none, Option.map_some,
              Option.getD_some] at hon
            have hed : e.deviceId = d := findUnit_deviceId st d e hf
            have hemem : e ∈ st.miniSplits := by
              unfold findUnit at hf
              exact List.mem_of_find?_eq_some hf
            exact hed ▸ h e hemem hon

/-- Executing an action list keeps every online stored id inside `ids`. -/
theorem onlineIds_execAll (ids : List String) (now : ℤ) (acts : List CAction) :
    ∀ st : SystemState,
      (∀ u ∈ st.miniSplits, u.isOnline = true → u.deviceId ∈ ids) →
      ∀ u ∈ (execAll now st acts).miniSplits,
        u.isOnline = true → u.deviceId ∈ ids := by
  induction acts with
  | nil => exact fun st h => h
  | cons a t ih =>
      intro st h
      show ∀ u ∈ (execAll now (executeAction st now a) t).miniSplits,
        u.isOnline = true → u.deviceId ∈ ids
      exact ih _ (onlineIds_exec ids st now a h)

/-- One sync step over a configured id keeps every online stored id
inside `ids`. -/
theorem onlineIds_syncDevice (ids : List String) (st : SystemState)
    (readings : String → SyncResult) (now : ℤ) (d : String) (hd : d ∈ ids)
    (h : ∀ u ∈ st.miniSplits, u.isOnline = true → u.deviceId ∈ ids) :
    ∀ u ∈ (syncDevice readings now st d).miniSplits,
      u.isOnline = true → u.deviceId ∈ ids := by
  unfold syncDevice
  cases readings d with
  | fail => exact onlineIds_umss ids st now d _ h (fun _ => hd)
  | noMain => exact h
  | ok r => exact onlineIds_umss ids st now d _ h (fun _ => hd)

/-- The sync loop keeps every online stored id inside `ids`. -/
theorem onlineIds_syncFold (l ids : List String) (readings : String → SyncResult)
    (now : ℤ) :
    ∀ st : SystemState, (∀ d ∈ l, d ∈ ids) →
      (∀ u ∈ st.miniSplits, u.isOnline = true → u.deviceId ∈ ids) →
      ∀ u ∈ (l.foldl (syncDevice readings now) st).miniSplits,
        u.isOnline = true → u.deviceId ∈ ids := by
  induction l with
  | nil => exact fun st _ h => h
  | cons a t ih =>
      intro st hsub h
      simp only [List.foldl_cons]
      exact ih _ (fun d hdt => hsub d (List.mem_cons_of_mem a hdt))
        (onlineIds_syncDevice ids st readings now a (hsub a (List.mem_cons_self a t)) h)

/-- The target of the sync update object, written with `Option.or`. -/
theorem syncUpdateOf_target (rd : DeviceReading) (now : ℤ) :
    (syncUpdateOf rd now).targetTemperature =
      (rd.heatingSetpoint.or rd.coolingSetpoint).map readingToF := by
  unfold syncUpdateOf
  cases rd.heatingSetpoint <;> simp

/-- Refreshing from an unchanged optional source is stable. -/
theorem getD_getD_stable {α : Type} (o : Option α) (m0 : α) :
    o.getD (o.getD m0) = o.getD m0 := by
  cases o <;> rfl

/-- Refreshing the target from an unchanged optional setpoint is stable
under the `|| 70` fallback. -/
theorem getD_jsOr_stable (o : Option ℚ) (e0 : ℚ) :
    o.getD (jsOrQ (o.getD (jsOrQ e0 70)) 70) = o.getD (jsOrQ e0 70) := by
  cases o with
  | none => exact jsOrQ70_idem e0
  | some t => rfl

/-- The fields of a freshly synced merged entry. -/
theorem mergedUnit_sync_fields (ex : Option MiniSplitState) (d : String)
    (rd : DeviceReading) (now : ℤ) :
    (mergedUnit ex d (syncUpdateOf rd now) now).deviceId = d ∧
    (mergedUnit ex d (syncUpdateOf rd now) now).isOnline = true ∧
    (mergedUnit ex d (syncUpdateOf rd now) now).mode =
      rd.mode.getD ((ex.map (fun e => e.mode)).getD Mode.off) ∧
    (mergedUnit ex d (syncUpdateOf rd now) now).targetTemperature =
      ((rd.heatingSetpoint.or rd.coolingSetpoint).map readingToF).getD
        (jsOrQ ((ex.map (fun e => e.targetTemperature)).getD 0) 70) := by
  refine ⟨rfl, rfl, rfl, ?_⟩
  show (syncUpdateOf rd now).targetTemperature.getD
      (jsOrQ ((ex.map (fun e => e.targetTemperature)).getD 0) 70) = _
  rw [syncUpdateOf_target]

/-- The fields of the reading after the per-unit command block. -/
theorem readingCmdEffect_fields (respect : MiniSplitState → Bool)
    (st3 : SystemState) (sched : Option Schedule) (M : Mode)
    (u1 : MiniSplitState) (rd : DeviceReading) :
    (readingCmdEffect respect st3 sched M u1 rd).temperature = rd.temperature ∧
    (readingCmdEffect respect st3 sched M u1 rd).mode =
      (if u1.mode ≠ M then some M else rd.mode) ∧
    (readingCmdEffect respect st3 sched M u1 rd).heatingSetpoint =
      (if respect u1 = false ∧
          1 ≤ jsAbs (desiredTemp st3 sched M u1 - u1.targetTemperature)
       then some { value := desiredTemp st3 sched M u1, isF := true }
       else rd.heatingSetpoint) ∧
    (readingCmdEffect respect st3 sched M u1 rd).coolingSetpoint =
      rd.coolingSetpoint := by
  unfold readingCmdEffect
  by_cases hc : respect u1 = false ∧
      1 ≤ jsAbs (desiredTemp st3 sched M u1 - u1.targetTemperature) <;>
    by_cases hm : u1.mode = M <;>
    simp [hc, hm]

/-- C9 — Running a coordination cycle and then immediately running a
second cycle with no external state change in between (each device's
next reading reflects exactly the mode and setpoint commanded by the
first cycle's executed actions and is otherwise unchanged, the outdoor
temperature is unchanged, the device manager stays authenticated with
every device call succeeding, the configured device ids are distinct,
every configured device keeps answering with a main component, and the
stored online units carry distinct ids drawn from the configured list)
yields an empty action list from the second cycle. -/
theorem coordinationCycle_idempotent
    (ids : List String) (readings : String → SyncResult)
    (sched : Option Schedule) (w : ℚ) (now1 now2 : ℤ) (st : SystemState)
    (hndids : ids.Nodup)
    (hndst : (unitIds st.miniSplits).Nodup)
    (honline : ∀ u ∈ st.miniSplits, u.isOnline = true → u.deviceId ∈ ids)
    (hnom : ∀ d ∈ ids, readings d ≠ SyncResult.noMain) :
    (runCoordinationCycle ids true (fun _ => true)
      (applyCommandsToReadings
        (runCoordinationCycle ids true (fun _ => true) readings sched w now1 st).1
        readings)
      sched w now2
      (runCoordinationCycle ids true (fun _ => true) readings sched w now1 st).2).1
      = [] := by
  -- Cycle-1 abbreviations
  set st1 := ids.foldl (syncDevice readings now1) st with hst1
  set st2 := updateOutsideTemperature st1 w now1 with hst2
  set M := determineOptimalSystemMode st2 sched w with hM
  set st3 := (detectConflicts st2 now1).2 with hst3
  set R := shouldRespectManualOverride st3 with hR
  set acts1 := generateCoordinationActions R st3 sched M with hacts1
  set st4 := execAll now1 st3 acts1 with hst4
  set stF := updateGlobalMode st4 M ModeChangeReason.coordinator_logic (some w) now1
    with hstF
  have hrun1 : runCoordinationCycle ids true (fun _ => true) readings sched w now1 st
      = (acts1, stF) := rfl
  rw [hrun1]
  -- Cycle-2 abbreviations
  set r2 := applyCommandsToReadings acts1 readings with hr2
  set st1' := ids.foldl (syncDevice r2 now2) stF with hst1p
  set st2' := updateOutsideTemperature st1' w now2 with hst2p
  set M2 := determineOptimalSystemMode st2' sched w with hM2
  set st3' := (detectConflicts st2' now2).2 with hst3p
  set R2 := shouldRespectManualOverride st3' with hR2
  show generateCoordinationActions R2 st3' sched M2 = []
  -- unit-list equalities
  have hms32 : st3.miniSplits = st1.miniSplits := (detect_frame st2 now1).1
  have hmsF : stF.miniSplits = st4.miniSplits :=
    (ugm_frame st4 M ModeChangeReason.coordinator_logic (some w) now1).1
  have hms32' : st3'.miniSplits = st1'.miniSplits := (detect_frame st2' now2).1
  -- key distinctness
  have hnd1 : (unitIds st1.miniSplits).Nodup :=
    nodup_syncFold ids readings now1 st hndst
  have hnd3 : (unitIds st3.miniSplits).Nodup := by rw [hms32]; exact hnd1
  have hnd4 : (unitIds st4.miniSplits).Nodup := nodup_execAll now1 st3 acts1 hnd3
  have hndF : (unitIds stF.miniSplits).Nodup := by rw [hmsF]; exact hnd4
  have hnd1' : (unitIds st1'.miniSplits).Nodup := nodup_syncFold ids r2 now2 stF hndF
  have hnd3' : (unitIds st3'.miniSplits).Nodup := by rw [hms32']; exact hnd1'
  -- online ids stay inside the configured list
  have hon1 : ∀ u ∈ st1.miniSplits, u.isOnline = true → u.deviceId ∈ ids :=
    onlineIds_syncFold ids ids readings now1 st (fun d hd => hd) honline
  have hon3 : ∀ u ∈ st3.miniSplits, u.isOnline = true → u.deviceId ∈ ids := by
    rw [hms32]; exact hon1
  have hon4 : ∀ u ∈ st4.miniSplits, u.isOnline = true → u.deviceId ∈ ids :=
    onlineIds_execAll ids now1 acts1 st3 hon3
  have honF : ∀ u ∈ stF.miniSplits, u.isOnline = true → u.deviceId ∈ ids := by
    rw [hmsF]; exact hon4
  -- global temperature range is the original one throughout
  have hmin1 : st1.globalMinTemp = st.globalMinTemp :=
    (syncFold_frame ids readings now1 st).2.1
  have hmax1 : st1.globalMaxTemp = st.globalMaxTemp :=
    (syncFold_frame ids readings now1 st).2.2.1
  have hmin3 : st3.globalMinTemp = st.globalMinTemp :=
    ((detect_frame st2 now1).2.2.1).trans hmin1
  have hmax3 : st3.globalMaxTemp = st.globalMaxTemp :=
    ((detect_frame st2 now1).2.2.2.1).trans hmax1
  have hmin4 : st4.globalMinTemp = st.globalMinTemp :=
    ((execAll_globals now1 st3 acts1).2.1).trans hmin3
  have hmax4 : st4.globalMaxTemp = st.globalMaxTemp :=
    ((execAll_globals now1 st3 acts1).2.2).trans hmax3
  have hminF : stF.globalMinTemp = st.globalMinTemp :=
    ((ugm_frame st4 M ModeChangeReason.coordinator_logic (some w) now1).2.1).trans hmin4
  have hmaxF : stF.globalMaxTemp = st.globalMaxTemp :=
    ((ugm_frame st4 M ModeChangeReason.coordinator_logic (some w) now1).2.2.1).trans hmax4
  have hmin1' : st1'.globalMinTemp = st.globalMinTemp :=
    ((syncFold_frame ids r2 now2 stF).2.1).trans hminF
  have hmax1' : st1'.globalMaxTemp = st.globalMaxTemp :=
    ((syncFold_frame ids r2 now2 stF).2.2.1).trans hmaxF
  have hmin3' : st3'.globalMinTemp = st.globalMinTemp :=
    ((detect_frame st2' now2).2.2.1).trans hmin1'
  have hmax3' : st3'.globalMaxTemp = st.globalMaxTemp :=
    ((detect_frame st2' now2).2.2.2.1).trans hmax1'
  -- second-cycle global mode entering mode determination
  have hgm2' : st2'.globalMode = M := by
    show st1'.globalMode = M
    rw [(syncFold_frame ids r2 now2 stF).1]
    exact updateGlobalMode_globalMode st4 M ModeChangeReason.coordinator_logic
      (some w) now1
  -- coordinator records of the second detection state
  have hrecs : st3'.coordinatorSetTemps = st4.coordinatorSetTemps := by
    have h1 : st3'.coordinatorSetTemps = st2'.coordinatorSetTemps :=
      (detect_frame st2' now2).2.2.2.2
    have h2 : st1'.coordinatorSetTemps = stF.coordinatorSetTemps :=
      (syncFold_frame ids r2 now2 stF).2.2.2.1
    have h3 : stF.coordinatorSetTemps = st4.coordinatorSetTemps :=
      (ugm_frame st4 M ModeChangeReason.coordinator_logic (some w) now1).2.2.2
    exact (h1.trans h2).trans h3
  -- setpoints agree across all intermediate states
  have hsp2 : heatingSetpointOf st2 sched = heatingSetpointOf st sched ∧
      coolingSetpointOf st2 sched = coolingSetpointOf st sched :=
    setpoints_congr st2 st sched hmin1 hmax1
  have hsp3 : heatingSetpointOf st3 sched = heatingSetpointOf st sched ∧
      coolingSetpointOf st3 sched = coolingSetpointOf st sched :=
    setpoints_congr st3 st sched hmin3 hmax3
  have hsp2' : heatingSetpointOf st2' sched = heatingSetpointOf st sched ∧
      coolingSetpointOf st2' sched = coolingSetpointOf st sched :=
    setpoints_congr st2' st sched hmin1' hmax1'
  have hsp3' : heatingSetpointOf st3' sched = heatingSetpointOf st sched ∧
      coolingSetpointOf st3' sched = coolingSetpointOf st sched :=
    setpoints_congr st3' st sched hmin3' hmax3'
  -- per-unit emptiness
  apply generate_eq_nil
  intro u hu
  have hmem3' : u ∈ st3'.miniSplits := (List.mem_filter.mp hu).1
  have honu : u.isOnline = true := by
    have := (List.mem_filter.mp hu).2
    simpa using this
  have hfind3' : findUnit st3' u.deviceId = some u := by
    show st3'.miniSplits.find? (fun x => x.deviceId = u.deviceId) = some u
    exact (mem_iff_find?_unit _ hnd3' u).mp hmem3'
  have hd_ids : u.deviceId ∈ ids := by
    apply online_sub_ids ids r2 now2 stF hndF honF u
    have hge : getOnlineMiniSplits st3' = getOnlineMiniSplits st1' :=
      getOnline_eq_of_miniSplits st3' st1' hms32'
    show u ∈ getOnlineMiniSplits st1'
    rw [← hge]
    exact hu
  have hfold1 : findUnit st1 u.deviceId =
      syncResultUnit (findUnit st u.deviceId) (readings u.deviceId) u.deviceId now1 :=
    findUnit_syncFold_mem ids readings now1 st u.deviceId hndids hd_ids
  have hfold2 : findUnit st1' u.deviceId =
      syncResultUnit (findUnit stF u.deviceId) (r2 u.deviceId) u.deviceId now2 :=
    findUnit_syncFold_mem ids r2 now2 stF u.deviceId hndids hd_ids
  have hueq : syncResultUnit (findUnit stF u.deviceId) (r2 u.deviceId)
      u.deviceId now2 = some u := by
    rw [← hfold2, ← findUnit_eq_of_miniSplits st3' st1' u.deviceId hms32']
    exact hfind3'
  cases hread : readings u.deviceId with
  | noMain => exact absurd hread (hnom u.deviceId hd_ids)
  | fail =>
      exfalso
      rw [hr2] at hueq
      simp only [applyCommandsToReadings] at hueq
      rw [hread] at hueq
      simp only [applyCommandsToReading, syncResultUnit, Option.some.injEq] at hueq
      rw [← hueq] at honu
      simp [mergedUnit] at honu
  | ok rd =>
      rw [hread] at hfold1
      have hfind1 : findUnit st1 u.deviceId =
          some (mergedUnit (findUnit st u.deviceId) u.deviceId
            (syncUpdateOf rd now1) now1) := hfold1
      set u1 := mergedUnit (findUnit st u.deviceId) u.deviceId
        (syncUpdateOf rd now1) now1 with hu1def
      have hu1d : u1.deviceId = u.deviceId := rfl
      have hu1on : u1.isOnline = true := rfl
      have hfind3 : findUnit st3 u.deviceId = some u1 :=
        (findUnit_eq_of_miniSplits st3 st1 u.deviceId hms32).trans hfind1
      have hexec := exec_generate_entry R st3 sched M now1 u1 hnd3
        (by rw [hu1d]; exact hfind3) hu1on
      rw [hu1d, ← hacts1, ← hst4] at hexec
      have happly := apply_generate_reading R st3 sched M u1 rd hnd3
        (by rw [hu1d]; exact hfind3) hu1on
      rw [hu1d, ← hacts1] at happly
      rw [hr2] at hueq
      simp only [applyCommandsToReadings] at hueq
      rw [hread, happly] at hueq
      set rd2 := readingCmdEffect R st3 sched M u1 rd with hrd2
      simp only [syncResultUnit, Option.some.injEq] at hueq
      have hfindF : findUnit stF u.deviceId = findUnit st4 u.deviceId :=
        findUnit_eq_of_miniSplits stF st4 u.deviceId hmsF
      -- the second mode determination repeats the first
      have honline2 : 0 < (getOnlineMiniSplits st2').length := by
        have hge : getOnlineMiniSplits st3' = getOnlineMiniSplits st2' :=
          getOnline_eq_of_miniSplits st3' st2' (detect_frame st2' now2).1
        rw [← hge]
        exact List.length_pos_of_mem hu
      have honline1 : 0 < (getOnlineMiniSplits st2).length := by
        have hmem1 : u1 ∈ st1.miniSplits := by
          have : st1.miniSplits.find? (fun x => x.deviceId = u.deviceId) = some u1 :=
            hfind1
          exact List.mem_of_find?_eq_some this
        have hm2 : u1 ∈ getOnlineMiniSplits st2 :=
          List.mem_filter.mpr ⟨hmem1, by simp [hu1on]⟩
        exact List.length_pos_of_mem hm2
      have hM2M : M2 = M := by
        rw [hM2, (dOSM_spec st2' sched w).2 honline2, hsp2'.1, hsp2'.2, hgm2',
          hM, (dOSM_spec st2 sched w).2 honline1, hsp2.1, hsp2.2]
        by_cases h1 : w < heatingSetpointOf st sched <;>
          by_cases h2 : w > coolingSetpointOf st sched <;>
          simp [h1, h2]
      have hrdmode : rd2.mode = if u1.mode ≠ M then some M else rd.mode :=
        (readingCmdEffect_fields R st3 sched M u1 rd).2.1
      have hu1mode : u1.mode = rd.mode.getD
          (((findUnit st u.deviceId).map (fun e => e.mode)).getD Mode.off) := rfl
      by_cases hP : R u1 = false ∧
          1 ≤ jsAbs (desiredTemp st3 sched M u1 - u1.targetTemperature)
      · -- the first cycle issued a temperature command for this unit
        have hexec2 : (findUnit st4 u.deviceId, lookupCoordinatorSet st4 u.deviceId) =
            (some (mergedUnit (some u1) u.deviceId
              { targetTemperature := some (desiredTemp st3 sched M u1),
                manualTemperatureOverride := some false } now1),
             some (desiredTemp st3 sched M u1)) := by
          rw [hexec]
          unfold execEntryEffect
          rw [if_pos hP]
          rfl
        rw [Prod.mk.injEq] at hexec2
        rw [hfindF, hexec2.1] at hueq
        have hrdhs : rd2.heatingSetpoint =
            some { value := desiredTemp st3 sched M u1, isF := true } := by
          have h := (readingCmdEffect_fields R st3 sched M u1 rd).2.2.1
          rw [if_pos hP] at h
          exact h
        have humode : u.mode = M := by
          rw [← hueq]
          show rd2.mode.getD u1.mode = M
          rw [hrdmode]
          by_cases hm1 : u1.mode = M
          · rw [if_neg (by simpa using hm1), hu1mode, getD_getD_stable, ← hu1mode]
            exact hm1
          · rw [if_pos hm1]
            rfl
        have hutgt : u.targetTemperature = (jsRound (desiredTemp st3 sched M u1) : ℚ) := by
          rw [← hueq]
          have h1 := (mergedUnit_sync_fields (some (mergedUnit (some u1) u.deviceId
            { targetTemperature := some (desiredTemp st3 sched M u1),
              manualTemperatureOverride := some false } now1)) u.deviceId rd2 now2).2.2.2
          rw [h1, hrdhs]
          simp [Option.or, readingToF]
        have hdisj : jsAbs (desiredTemp st3' sched M2 u - u.targetTemperature) < 1 := by
          rw [hM2M, hutgt]
          cases hMc : M with
          | off =>
              exfalso
              rw [hMc] at hP
              simp only [desiredTemp, sub_self] at hP
              have : jsAbs (0 : ℚ) = 0 := by norm_num [jsAbs]
              rw [this] at hP
              exact absurd hP.2 (by norm_num)
          | heat =>
              have hveq : desiredTemp st3' sched Mode.heat u =
                  desiredTemp st3 sched Mode.heat u1 := by
                show heatingSetpointOf st3' sched = heatingSetpointOf st3 sched
                rw [hsp3'.1, hsp3.1]
              rw [hveq]
              have h1 := jsAbs_sub_jsRound_le (desiredTemp st3 sched Mode.heat u1)
              calc jsAbs (desiredTemp st3 sched Mode.heat u1 -
                    (jsRound (desiredTemp st3 sched Mode.heat u1) : ℚ)) ≤ 1/2 := h1
                _ < 1 := by norm_num
          | cool =>
              have hveq : desiredTemp st3' sched Mode.cool u =
                  desiredTemp st3 sched Mode.cool u1 := by
                show coolingSetpointOf st3' sched = coolingSetpointOf st3 sched
                rw [hsp3'.2, hsp3.2]
              rw [hveq]
              have h1 := jsAbs_sub_jsRound_le (desiredTemp st3 sched Mode.cool u1)
              calc jsAbs (desiredTemp st3 sched Mode.cool u1 -
                    (jsRound (desiredTemp st3 sched Mode.cool u1) : ℚ)) ≤ 1/2 := h1
                _ < 1 := by norm_num
        exact perUnitActions_eq_nil R2 st3' sched M2 u (humode.trans hM2M.symm)
          (Or.inr hdisj)
      · -- no temperature command was issued for this unit
        have hexec2 : (findUnit st4 u.deviceId, lookupCoordinatorSet st4 u.deviceId) =
            (some u1, lookupCoordinatorSet st3 u.deviceId) := by
          rw [hexec]
          unfold execEntryEffect
          rw [if_neg hP]
        rw [Prod.mk.injEq] at hexec2
        rw [hfindF, hexec2.1] at hueq
        have hrdhs : rd2.heatingSetpoint = rd.heatingSetpoint := by
          have h := (readingCmdEffect_fields R st3 sched M u1 rd).2.2.1
          rw [if_neg hP] at h
          exact h
        have hrdcs : rd2.coolingSetpoint = rd.coolingSetpoint :=
          (readingCmdEffect_fields R st3 sched M u1 rd).2.2.2
        have humode : u.mode = M := by
          rw [← hueq]
          show rd2.mode.getD u1.mode = M
          rw [hrdmode]
          by_cases hm1 : u1.mode = M
          · rw [if_neg (by simpa using hm1), hu1mode, getD_getD_stable, ← hu1mode]
            exact hm1
          · rw [if_pos hm1]
            rfl
        have hu1tgt : u1.targetTemperature =
            ((rd.heatingSetpoint.or rd.coolingSetpoint).map readingToF).getD
              (jsOrQ (((findUnit st u.deviceId).map
                (fun e => e.targetTemperature)).getD 0) 70) :=
          (mergedUnit_sync_fields _ _ _ _).2.2.2
        have hutgt : u.targetTemperature = u1.targetTemperature := by
          rw [← hueq]
          have h1 := (mergedUnit_sync_fields (some u1) u.deviceId rd2 now2).2.2.2
          rw [h1, hrdhs, hrdcs]
          show ((rd.heatingSetpoint.or rd.coolingSetpoint).map readingToF).getD
            (jsOrQ u1.targetTemperature 70) = u1.targetTemperature
          rw [hu1tgt]
          exact getD_jsOr_stable _ _
        rw [not_and_or] at hP
        rcases hP with hR1 | hlt
        · -- the override of this unit is respected, both cycles
          have hRtrue : R u1 = true := by
            revert hR1
            cases R u1 <;> simp
          have hlk : lookupCoordinatorSet st3' u.deviceId =
              lookupCoordinatorSet st3 u.deviceId :=
            (lookup_eq_of_records st3' st4 u.deviceId hrecs).trans hexec2.2
          have hR2true : R2 u = true := by
            rw [hR2]
            rw [hR] at hRtrue
            unfold shouldRespectManualOverride at hRtrue ⊢
            rw [hlk, hutgt, hmin3', hmax3']
            rw [hmin3, hmax3, hu1d] at hRtrue
            exact hRtrue
          exact perUnitActions_eq_nil R2 st3' sched M2 u (humode.trans hM2M.symm)
            (Or.inl hR2true)
        · -- the desired temperature is inside the deadband, both cycles
          have hlt2 : jsAbs (desiredTemp st3 sched M u1 - u1.targetTemperature) < 1 :=
            not_le.mp hlt
          have hdisj : jsAbs (desiredTemp st3' sched M2 u - u.targetTemperature) < 1 := by
            rw [hM2M, hutgt]
            cases hMc : M with
            | off =>
                simp only [desiredTemp]
                rw [hutgt, sub_self]
                norm_num [jsAbs]
            | heat =>
                have hveq : desiredTemp st3' sched Mode.heat u =
                    desiredTemp st3 sched M u1 := by
                  rw [hMc]
                  show heatingSetpointOf st3' sched = heatingSetpointOf st3 sched
                  rw [hsp3'.1, hsp3.1]
                rw [hveq]
                exact hlt2
            | cool =>
                have hveq : desiredTemp st3' sched Mode.cool u =
                    desiredTemp st3 sched M u1 := by
                  rw [hMc]
                  show coolingSetpointOf st3' sched = coolingSetpointOf st3 sched
                  rw [hsp3'.2, hsp3.2]
                rw [hveq]
                exact hlt2
          exact perUnitActions_eq_nil R2 st3' sched M2 u (humode.trans hM2M.symm)
            (Or.inr hdisj)

/-- A fixed device reading for the idempotence witness. -/
def sampleReading : DeviceReading :=
  { temperature := some { value := 70, isF := true },
    heatingSetpoint := some { value := 68, isF := true },
    coolingSetpoint := none,
    mode := some Mode.off }

/-- Readings for the idempotence witness: the single configured device
reports `sampleReading`. -/
def sampleReadings : String → SyncResult :=
  fun d => if d = "dev-0001" then SyncResult.ok sampleReading else SyncResult.fail

/-- C9 witness: one configured device answering fixed readings, global
range [68, 72], outdoor 60°F; the hypotheses hold at these inputs and
the second cycle emits no action. -/
theorem coordinationCycle_idempotent_witness :
    (["dev-0001"] : List String).Nodup ∧
    (unitIds sampleState.miniSplits).Nodup ∧
    (∀ u ∈ sampleState.miniSplits, u.isOnline = true → u.deviceId ∈ ["dev-0001"]) ∧
    (∀ d ∈ ["dev-0001"], sampleReadings d ≠ SyncResult.noMain) ∧
    (runCoordinationCycle ["dev-0001"] true (fun _ => true)
      (applyCommandsToReadings
        (runCoordinationCycle ["dev-0001"] true (fun _ => true) sampleReadings
          none 60 0 sampleState).1 sampleReadings)
      none 60 1000
      (runCoordinationCycle ["dev-0001"] true (fun _ => true) sampleReadings
        none 60 0 sampleState).2).1 = [] :=
  ⟨by decide, by decide, by decide, by decide,
   coordinationCycle_idempotent ["dev-0001"] sampleReadings none 60 0 1000 sampleState
     (by decide) (by decide) (by decide) (by decide)⟩
